import Mathlib

/-!
Verification development for the rise_drones fleet-control plane.

This file shallowly embeds, in Lean 4, the parts of the repository that the
checked properties are about:

* `src/app/crm.py` — the resource broker (registry, `get_drone` allocation,
  `register`, staleness eviction);
* `src/dss/server/hexacopter.py` — mission upload and validation;
* `src/dss/server/dss.py` — the per-vehicle arbitration server main loop
  (authority state machine, link-loss failsafe, task dispatch);
* `src/dss/auxiliaries/zmq.py` — the request socket `send_and_receive`.

Modelling conventions:

* Python dicts used as ordered string-keyed maps become association lists
  `List (String × α)` (Python 3.7+ dicts preserve insertion order).
* Python floats (timestamps, coordinates, speeds) are modelled as `ℚ`:
  every float value is a rational, and none of the checked properties
  depends on rounding.  The transcendental library functions `math.sqrt`,
  `math.cos`, `math.atan` and the constant `math.pi` are uninterpreted
  parameters collected in `MathEnv`.
* Python exceptions are explicit: fallible code returns `Except PyExc α`.
  In particular `dict[key]` on a missing key is `PyExc.keyError`, reading an
  unassigned local is `PyExc.unboundLocalError`, and mutating a dict while
  iterating over it is `PyExc.runtimeError` (CPython raises
  `RuntimeError: dictionary changed size during iteration` on the next call
  to the iterator, even when the dict is exhausted).
* Logging calls become strings appended to a `logs : List String` field;
  hardware side effects (`hexa.stop()`, the `app_lost` call to the broker)
  are recorded the same way.
-/

deriving instance DecidableEq for Except

namespace RiseDrones

/-- Python `str.casefold` restricted to the ASCII strings the repository
uses for capability tags: character-wise lower-casing. -/
def casefold (s : String) : String := s.map Char.toLower

/-- Values that occur in reply payload fields. -/
inductive Val where
  | str (s : String)
  | int (n : Int)
  | rat (q : ℚ)
  deriving DecidableEq

/-- Reply dicts as built by `dss.auxiliaries.zmq.ack` / `nack`:
`{fcn:"ack", call, ...args}` or `{fcn:"nack", call, description}`. -/
inductive Reply where
  | ack (call : String) (args : List (String × Val))
  | nack (call : String) (description : String)
  deriving DecidableEq

/-- `dss.auxiliaries.zmq.is_ack`: true iff the `fcn` field is `"ack"`. -/
def is_ack : Reply → Bool
  | .ack _ _ => true
  | .nack _ _ => false

/-- Python exceptions that the modelled code can raise. -/
inductive PyExc where
  | keyError (key : String)
  | runtimeError (msg : String)
  | unboundLocalError (name : String)
  | valueError (msg : String)
  deriving DecidableEq

/-! ## Resource broker (`src/app/crm.py`, class `CRM`) -/

/-- One registry record (`self._clients[id]`).  `capabilities` is an
`Option` because the key is genuinely absent from records created by
`_request_launch_app` (crm.py:439), `task_rtl` (crm.py:121) and
`_request_launch_dss` (crm.py:471); it is only present after `register`. -/
structure ClientRecord where
  name : String
  type : String
  capabilities : Option (List String)
  desc : String
  owner : String
  ip : String
  port : Int
  timestamp : ℚ
  deriving DecidableEq

/-- Ordered dict lookup (`key in d` / `d[key]`). -/
def dictGet (reg : List (String × ClientRecord)) (k : String) : Option ClientRecord :=
  (reg.find? (fun p => p.1 == k)).map Prod.snd

/-- Tasks the CRM enqueues on its `TaskQueue` (executed asynchronously,
in FIFO order, by the single worker thread). -/
inductive CrmTask where
  | set_owner (client_name new_owner : String)
  | rtl (client_name : String)
  | start_battery_stream (client_name : String)
  deriving DecidableEq

/-- The broker state owned by the CRM dispatcher thread. -/
structure CrmState where
  clients : List (String × ClientRecord)
  nextIndex : Nat
  task_queue : List CrmTask
  logs : List String
  deriving DecidableEq

/-- Staleness test from `CRM.delStaleClients` (crm.py:187):
`self._now - client['timestamp'] > 15`. -/
def staleClient (now : ℚ) (c : ClientRecord) : Bool := now - c.timestamp > 15

/-- The ownership warnings logged while deleting `id_`
(crm.py:195-197): one per record whose `owner` equals `id_`. -/
def ownerWarnings (clients : List (String × ClientRecord)) (id_ : String) : List String :=
  (clients.filter (fun p => p.2.owner == id_)).map
    (fun p => "CRM is deleting app " ++ id_ ++ " that is owner of dss " ++ p.1)

/-- The deletion loop of `CRM.delStaleClients` (crm.py:190-200): for each
collected id, log, emit the ownership warnings against the current dict,
then delete the record. -/
def delStaleLoop : List String → CrmState → CrmState
  | [], st => st
  | id_ :: rest, st =>
      let warns := ownerWarnings st.clients id_
      delStaleLoop rest
        { st with
          clients := st.clients.filter (fun p => !(p.1 == id_)),
          logs := st.logs ++ ["deleting " ++ id_] ++ warns
                  ++ ["client " ++ id_ ++ " got removed"] }

/-- `CRM.delStaleClients` (crm.py:184-202): collect every id whose record
is silent for more than 15 seconds, then delete them one by one.  Returns
the new state and the list of deleted ids. -/
def delStaleClients (now : ℚ) (st : CrmState) : CrmState × List String :=
  let clientsToDelete := (st.clients.filter (fun p => staleClient now p.2)).map Prod.fst
  (delStaleLoop clientsToDelete st, clientsToDelete)

/-- One receive-timeout tick of `CRM.main` (crm.py:152-159): when
`recv_json` raises `zmq.error.Again`, the dispatcher runs
`delStaleClients` and loops. -/
def crmTimeoutTick (now : ℚ) (st : CrmState) : CrmState :=
  (delStaleClients now st).1

/-- Requested / stored capability multiset as a Python set:
`set({capa.casefold(): capa for capa in caps})` is the set of casefolded
strings.  Modelled as a deduplicated list; its `length` is the set size. -/
def capaSet (caps : List String) : List String := (caps.map casefold).dedup

/-- Python `set.issubset`. -/
def subsetOf (a b : List String) : Bool := a.all (fun x => b.contains x)

/-- Accumulator of the drone-selection loop in `CRM._request_get_drone`
(crm.py:299-307): `drone_found`, `n_capabilities` (initially 100) and the
currently selected id (`dss_id`, unassigned before the first hit —
modelled as `""`). -/
structure DroneSel where
  drone_found : Bool
  n_capabilities : Nat
  dss_id : String
  deriving DecidableEq

/-- Eligibility condition of the selection loop body (crm.py:304), minus
the shrinking `n_capabilities` bound: owner is the broker, vehicle type,
requested capabilities a subset, seen less than 20 seconds ago. -/
def eligibleDrone (now : ℚ) (reqSet : List String) (c : ClientRecord) : Bool :=
  c.owner == "crm" && c.type == "dss" &&
  (match c.capabilities with
   | some caps => subsetOf reqSet (capaSet caps)
   | none => false) &&
  decide (now - c.timestamp < 20)

/-- Selection-loop step: take the client if it is eligible and has
strictly fewer capabilities than the best so far. -/
def droneStep (now : ℚ) (reqSet : List String) (sel : DroneSel)
    (id_ : String) (c : ClientRecord) (caps : List String) : DroneSel :=
  if eligibleDrone now reqSet c && decide ((capaSet caps).length < sel.n_capabilities) then
    ⟨true, (capaSet caps).length, id_⟩
  else sel

/-- The selection loop of `CRM._request_get_drone` (crm.py:301-307).
`client['capabilities']` is read for every record before any other test,
so a record without the key raises `KeyError`. -/
def get_drone_scan (now : ℚ) (reqSet : List String) :
    List (String × ClientRecord) → DroneSel → Except PyExc DroneSel
  | [], sel => .ok sel
  | (id_, c) :: rest, sel =>
      match c.capabilities with
      | none => .error (.keyError "capabilities")
      | some caps => get_drone_scan now reqSet rest (droneStep now reqSet sel id_ c caps)

/-- A `get_drone` request message.  The mandatory-`id` check of the
handler is made static by typing; `force` / `capabilities` keys are
optional. -/
structure GetDroneMsg where
  id : String
  force : Option String
  capabilities : Option (List String)
  deriving DecidableEq

/-- `CRM._request_get_drone` (crm.py:273-312).  Returns the new broker
state and the reply, or the uncaught Python exception. -/
def request_get_drone (now : ℚ) (st : CrmState) (msg : GetDroneMsg) :
    CrmState × Except PyExc Reply :=
  if !(msg.force.isSome || msg.capabilities.isSome) then
    (st, .ok (.nack "get_drone" "bad arguments: either force or capabilities must be used"))
  else if (dictGet st.clients msg.id).isNone then
    (st, .ok (.nack "get_drone" "unknown requestor id"))
  else
    match msg.force with
    | some force =>
        match dictGet st.clients force with
        | none => (st, .ok (.nack "get_drone" "unknown forced id"))
        | some c =>
            if !(c.owner == "crm") then
              (st, .ok (.nack "get_drone" "forced id not available"))
            else if now - c.timestamp > 20 then
              (st, .ok (.nack "get_drone" "forced id is stale"))
            else
              ({ st with task_queue := st.task_queue ++ [.set_owner force msg.id] },
               .ok (.ack "get_drone" [("id", .str force), ("ip", .str c.ip), ("port", .int c.port)]))
    | none =>
        let reqSet := capaSet (msg.capabilities.getD [])
        match get_drone_scan now reqSet st.clients ⟨false, 100, ""⟩ with
        | .error e => (st, .error e)
        | .ok sel =>
            if sel.drone_found then
              match dictGet st.clients sel.dss_id with
              | some d =>
                  ({ st with task_queue := st.task_queue ++ [.set_owner sel.dss_id msg.id] },
                   .ok (.ack "get_drone"
                     [("id", .str sel.dss_id), ("ip", .str d.ip), ("port", .int d.port)]))
              | none => (st, .error (.keyError sel.dss_id))
            else
              (st, .ok (.nack "get_drone" "no available drone with requested capabilities"))

/-- Timestamp refresh done by `CRM.main` before dispatching (crm.py:165-168). -/
def touchClient (now : ℚ) (clients : List (String × ClientRecord)) (id_ : String) :
    List (String × ClientRecord) :=
  clients.map (fun p => if p.1 == id_ then (p.1, { p.2 with timestamp := now }) else p)

/-- `CRM.main` around a `get_drone` request (crm.py:164-175): refresh the
sender timestamp, dispatch, turn an uncaught exception into
`nack(fcn, "unexpected exception")`. -/
def crm_handle_get_drone (now : ℚ) (st : CrmState) (msg : GetDroneMsg) : CrmState × Reply :=
  let st1 := { st with clients := touchClient now st.clients msg.id }
  match request_get_drone now st1 msg with
  | (st2, .ok r) => (st2, r)
  | (st2, .error _) => (st2, .nack "get_drone" "unexpected exception")

/-- Python format `{index:03d}`: zero-pad to three digits. -/
def pad3 (n : Nat) : String :=
  (if n < 10 then "00" else if n < 100 then "0" else "") ++ toString n

/-- A `register` request message.  The mandatory keys are typed; `id` is
the optional two-phase-registration id (Python tests `'id' in msg and
msg['id']`, so an empty string counts as absent). -/
structure RegisterMsg where
  name : String
  desc : String
  type : String
  ip : String
  port : Int
  capabilities : List String
  id : Option String
  deriving DecidableEq

/-- Scan result for the same-ip collision loop of `CRM._request_register`
(crm.py:552-559). -/
inductive RegScan where
  | completed
  | fresh_collision
  | dict_mutation
  deriving DecidableEq

/-- The same-ip collision loop (crm.py:552-559), iterating the live dict:
a fresh (`< 20 s`) collision returns the nack immediately; a stale
collision executes `del self._clients[client_id]` inside the iteration, so
the *next* step of the dict iterator raises
`RuntimeError: dictionary changed size during iteration` — the deletion
persists but the loop never completes. -/
def register_scan (now : ℚ) (msgIp msgType : String) :
    List (String × ClientRecord) → List (String × ClientRecord) × RegScan
  | [] => ([], .completed)
  | (cid, c) :: rest =>
      if c.ip == msgIp && c.type == msgType then
        if now - c.timestamp < 20 then ((cid, c) :: rest, .fresh_collision)
        else (rest, .dict_mutation)
      else
        let (rest2, out) := register_scan now msgIp msgType rest
        ((cid, c) :: rest2, out)

/-- Record stored for a fresh registration (crm.py:563). -/
def freshRecord (now : ℚ) (msg : RegisterMsg) : ClientRecord :=
  { name := msg.name, type := msg.type, capabilities := some msg.capabilities,
    desc := msg.desc, owner := "crm", ip := msg.ip, port := msg.port, timestamp := now }

/-- Tail of `CRM._request_register` after the registry update
(crm.py:564-570): publish the client list (not modelled), enqueue the
battery-stream task for vehicles, ack with the id. -/
def registerFinish (msg : RegisterMsg) (id_ : String) (st : CrmState) :
    CrmState × Except PyExc Reply :=
  let st1 :=
    if msg.type == "dss" then
      { st with task_queue := st.task_queue ++ [.start_battery_stream id_] }
    else st
  (st1, .ok (.ack "register" [("id", .str id_)]))

/-- `CRM._request_register` (crm.py:515-570).  `valid_ip` stands for the
external `dss.auxiliaries.zmq.valid_ip` (the `ipaddress` library parse). -/
def request_register (valid_ip : String → Bool) (now : ℚ) (st : CrmState)
    (msg : RegisterMsg) : CrmState × Except PyExc Reply :=
  if !valid_ip msg.ip then
    (st, .ok (.nack "register" ("bad ip: " ++ msg.ip)))
  else if msg.port < 1000 then
    (st, .ok (.nack "register" ("bad port: " ++ toString msg.port)))
  else if !(msg.type == "dss" || msg.type == "da" || msg.type == "dsa") then
    (st, .ok (.nack "register" "unknown client type"))
  else if (match msg.id with | some s => s != "" | none => false) then
    let id_ := msg.id.getD ""
    match dictGet st.clients id_ with
    | none => (st, .ok (.nack "register" "unknown client id"))
    | some c =>
        if c.ip != "" then
          (st, .ok (.nack "register" "client is already bound to endpoint"))
        else if !(msg.name == c.name && msg.type == c.type) then
          (st, .ok (.nack "register" "unexpected name or type"))
        else
          let clients2 := st.clients.map (fun p =>
            if p.1 == id_ then
              (p.1, { p.2 with ip := msg.ip, port := msg.port, desc := msg.desc,
                               capabilities := some msg.capabilities, timestamp := now })
            else p)
          registerFinish msg id_ { st with clients := clients2 }
  else
    let afterScan :=
      if msg.type == "dss" then register_scan now msg.ip msg.type st.clients
      else (st.clients, .completed)
    match afterScan with
    | (clients2, .fresh_collision) =>
        ({ st with clients := clients2 }, .ok (.nack "register" "dss with same ip found"))
    | (clients2, .dict_mutation) =>
        ({ st with clients := clients2,
                   logs := st.logs ++ ["stale dss with same ip found and replaced"] },
         .error (.runtimeError "dictionary changed size during iteration"))
    | (clients2, .completed) =>
        let id_ := msg.type ++ pad3 st.nextIndex
        registerFinish msg id_
          { st with clients := clients2 ++ [(id_, freshRecord now msg)],
                    nextIndex := st.nextIndex + 1 }

/-- `CRM.main` around a `register` request (crm.py:164-175): refresh the
sender timestamp when an id is supplied, dispatch, turn an uncaught
exception into `nack(fcn, "unexpected exception")`. -/
def crm_handle_register (valid_ip : String → Bool) (now : ℚ) (st : CrmState)
    (msg : RegisterMsg) : CrmState × Reply :=
  let st1 :=
    match msg.id with
    | some i => { st with clients := touchClient now st.clients i }
    | none => st
  match request_register valid_ip now st1 msg with
  | (st2, .ok r) => (st2, r)
  | (st2, .error _) => (st2, .nack "register" "unexpected exception")

/-! ## Mission upload (`src/dss/server/hexacopter.py`) -/

/-- Uninterpreted models of the float library functions used by the
waypoint geometry (`math.sqrt`, `math.cos`, `math.atan`) and the float
constant `math.pi`.  Every Python float is a rational, so `ℚ → ℚ`
parameters are a faithful shape; no checked property depends on their
values. -/
structure MathEnv where
  sqrt : ℚ → ℚ
  cos : ℚ → ℚ
  sin : ℚ → ℚ
  atan : ℚ → ℚ
  pi : ℚ

/-- Position keys of a JSON waypoint: one of the three input frames, or
none of the recognized key sets. -/
inductive JsonPos where
  | lla (lat lon alt : ℚ) (alt_type : String)
  | ned (north east down : ℚ)
  | xyz (x y z : ℚ)
  | missing
  deriving DecidableEq

/-- The optional `heading` key: a string or a number. -/
inductive JsonHeading where
  | str (s : String)
  | num (q : ℚ)
  deriving DecidableEq

/-- A JSON waypoint as received by `upload_mission_LLA|NED|XYZ`. -/
structure JsonWP where
  pos : JsonPos
  heading : Option JsonHeading
  speed : Option ℚ
  action : Option String
  deriving DecidableEq

/-- `hexacopter.Waypoint` (hexacopter.py:67-78), the internal normalized
representation: geodetic lat/lon plus altitude relative to the init
point. -/
structure Waypoint where
  id_str : String := "id_NOT_SET"
  lat : ℚ := 0
  lon : ℚ := 0
  alt : ℚ := 0
  heading : ℚ := 0
  action : String := ""
  speed : ℚ := 0
  is_init_point : Bool := false
  deriving DecidableEq

/-- `hexacopter.Geofence` (hexacopter.py:56-60), defaults 2/50/50. -/
structure Geofence where
  height_low : ℚ := 2
  height_high : ℚ := 50
  radius : ℚ := 50
  deriving DecidableEq

/-- The Hexacopter state touched by mission upload. -/
structure HexaState where
  init_point_wp : Waypoint
  geofence : Geofence
  default_speed : ℚ
  pending_mission : List (String × Waypoint)
  deriving DecidableEq

/-- `Hexacopter.parse_heading` (hexacopter.py:362-379): `'course'` maps to
the internal code `-1`, any other string to the faulty code `-99`, a
number is kept iff `0 <= heading < 360`, a missing key is faulty. -/
def parse_heading (h : Option JsonHeading) : ℚ :=
  match h with
  | none => -99
  | some (.str s) => if s == "course" then -1 else -99
  | some (.num q) => if 0 ≤ q ∧ q < 360 then q else -99

/-- Digit run of a CPython decimal integer literal, after the first digit
has been consumed into `acc`: further (ASCII) digits, with a single
underscore allowed between two digits. -/
def pyDigitsAux : List Char → Nat → Option Nat
  | [], acc => some acc
  | '_' :: rest, acc =>
      match rest with
      | [] => none
      | c :: rest2 =>
          if c.isDigit then pyDigitsAux rest2 (acc * 10 + (c.toNat - 48)) else none
  | c :: rest, acc =>
      if c.isDigit then pyDigitsAux rest (acc * 10 + (c.toNat - 48)) else none

/-- A nonempty CPython digit run: starts with a digit, underscores only
between digits. -/
def pyDigits? : List Char → Option Nat
  | [] => none
  | c :: rest => if c.isDigit then pyDigitsAux rest (c.toNat - 48) else none

/-- Surrounding-whitespace strip of CPython `int(str)`. -/
def pyStrip (s : String) : List Char :=
  ((s.data.dropWhile Char.isWhitespace).reverse.dropWhile Char.isWhitespace).reverse

/-- CPython `int(s)` on a string: optional surrounding whitespace, an
optional single sign, then a nonempty digit run with single underscores
allowed between digits (ASCII digits; the exotic unicode digits CPython
also accepts never arise here).  `none` is the `ValueError` raise. -/
def pyInt? (s : String) : Option Int :=
  match pyStrip s with
  | '+' :: rest => (pyDigits? rest).map (fun n => (n : ℤ))
  | '-' :: rest => (pyDigits? rest).map (fun n => -(n : ℤ))
  | cs => (pyDigits? cs).map (fun n => (n : ℤ))

/-- The frame/heading/speed/action part of `Hexacopter.json_to_LLA`
(hexacopter.py:383-445): convert a JSON waypoint in any input frame to
the internal LLA `Waypoint`.  Unrecognized keys leave the default
position `(0, 0, 0)`. -/
def json_to_LLA_wp (env : MathEnv) (hx : HexaState) (jwp : JsonWP) (id_str : String) : Waypoint :=
  let heading0 := parse_heading jwp.heading
  let init_lat_rad := hx.init_point_wp.lat / 180 * env.pi
  let init_heading_rad := hx.init_point_wp.heading / 180 * env.pi
  let wp0 : Waypoint :=
    match jwp.pos with
    | .lla lat lon alt alt_type =>
        if alt_type == "relative" then
          { id_str := id_str, lat := lat, lon := lon, alt := alt, heading := heading0 }
        else if alt_type == "amsl" then
          { id_str := id_str, lat := lat, lon := lon, alt := alt - hx.init_point_wp.alt,
            heading := heading0 }
        else
          { id_str := id_str, heading := heading0 }
    | .ned north east down =>
        { id_str := id_str,
          lat := hx.init_point_wp.lat + north / 111120,
          lon := hx.init_point_wp.lon + east / (111120 * env.cos init_lat_rad),
          alt := -down, heading := heading0 }
    | .xyz x y z =>
        let beta := -init_heading_rad
        let north := x * env.cos beta + y * env.sin beta
        let east := -x * env.sin beta + y * env.cos beta
        let h1 :=
          if heading0 ≥ 0 then
            let h := heading0 + hx.init_point_wp.heading
            if h > 360 then h - 360 else h
          else heading0
        { id_str := id_str,
          lat := hx.init_point_wp.lat + north / 111120,
          lon := hx.init_point_wp.lon + east / (111120 * env.cos init_lat_rad),
          alt := -z, heading := h1 }
    | .missing => { id_str := id_str, heading := heading0 }
  { wp0 with
    speed := jwp.speed.getD hx.default_speed,
    action := jwp.action.getD "" }

/-- `Hexacopter.json_to_LLA` (hexacopter.py:383-445).  Its first
statements run `wp.id = int(id_str.replace("id", ""))`
(hexacopter.py:388), which raises `ValueError` whenever the string left
after deleting every occurrence of `"id"` is not a CPython integer
literal; the parsed value itself is stored in an attribute no other code
ever reads, so the model keeps the parse and its raise and drops the
dead store.  On a parseable id the conversion of `json_to_LLA_wp`
runs. -/
def json_to_LLA (env : MathEnv) (hx : HexaState) (jwp : JsonWP) (id_str : String) :
    Except PyExc Waypoint :=
  match pyInt? (id_str.replace "id" "") with
  | none => .error (.valueError (id_str.replace "id" ""))
  | some _ => .ok (json_to_LLA_wp env hx jwp id_str)

/-- `Waypoint.get_3D_distance_to` (hexacopter.py:80-112): northing,
easting, altitude delta, 2D and 3D distance, and bearing from `self` to
`wp`. -/
def get_3D_distance_to (env : MathEnv) (self wp : Waypoint) : ℚ × ℚ × ℚ × ℚ × ℚ × ℚ :=
  let dlat := wp.lat - self.lat
  let dlon := wp.lon - self.lon
  let dalt := wp.alt - self.alt
  let northing := dlat * 1852 * 60
  let easting := dlon * 1852 * 60 * env.cos (self.lat / 180 * env.pi)
  let distance2D := env.sqrt (northing ^ 2 + easting ^ 2)
  let distance3D := env.sqrt (northing ^ 2 + easting ^ 2 + dalt ^ 2)
  let bearing : ℚ :=
    if easting == 0 then (if northing > 0 then 0 else 180)
    else if easting > 0 then (env.pi / 2 - env.atan (northing / easting)) / env.pi * 180
    else -(env.pi / 2 + env.atan (northing / easting)) / env.pi * 180
  (northing, easting, dalt, distance2D, distance3D, bearing)

/-- `Waypoint.check_geofence` (hexacopter.py:115-132): 2D distance to the
init point within `radius` and relative altitude within the height band. -/
def check_geofence (env : MathEnv) (self ref_point : Waypoint)
    (radius height_low height_high : ℚ) : Bool × String :=
  if !ref_point.is_init_point then (false, "Not using init_point for reference")
  else
    let distance2D := (get_3D_distance_to env self ref_point).2.2.2.1
    if distance2D > radius then (false, "Geofence violation, " ++ self.id_str)
    else if self.alt < height_low ∨ self.alt > height_high then
      (false, "Geofence violation, " ++ self.id_str)
    else (true, "")

/-- Dict key membership (`ghost_id_string not in mission`). -/
def missionHas (mission : List (String × JsonWP)) (k : String) : Bool :=
  mission.any (fun p => p.1 == k)

/-- The per-waypoint loop of `Hexacopter.upload_mission`
(hexacopter.py:452-496): convert (which raises `ValueError` on an
unparseable waypoint id), then check position format, geofence,
numbering, action, minimum speed and heading, short-circuiting on the
first failure.  On normal completion the last geofence check left
`(check_ok, descr) = (True, "")`. -/
def upload_mission_loop (env : MathEnv) (hx : HexaState)
    (mission : List (String × JsonWP)) :
    List (String × JsonWP) → Nat → List (String × Waypoint) →
    Except PyExc (Bool × String × List (String × Waypoint))
  | [], _, temp => .ok (true, "", temp)
  | (id_str, jwp) :: rest, i, temp =>
      match json_to_LLA env hx jwp id_str with
      | .error e => .error e
      | .ok new_wp =>
        if new_wp.lat = 0 ∧ new_wp.lon = 0 then
          .ok (false, "WP position format faulty, " ++ id_str, temp)
        else
          let geo := check_geofence env new_wp hx.init_point_wp hx.geofence.radius
            hx.geofence.height_low hx.geofence.height_high
          if geo.1 = false then .ok (false, geo.2, temp)
          else
            let ghost_id_string := "id" ++ toString i
            if missionHas mission ghost_id_string = false then
              .ok (false, "WP numbering faulty, missing " ++ ghost_id_string, temp)
            else if jwp.action.isSome = true then
              .ok (false, "WP action not supported, " ++ id_str, temp)
            else if new_wp.speed < (0.1 : ℚ) then
              .ok (false, "Speed below 0.1, " ++ id_str, temp)
            else if new_wp.heading = -99 then
              .ok (false, "Heading faulty, " ++ id_str, temp)
            else
              upload_mission_loop env hx mission rest (i + 1) (temp ++ [(id_str, new_wp)])

/-- `Hexacopter.upload_mission` (hexacopter.py:448-502).  The locals
`check_ok` and `descr` are assigned only inside the loop body, so an
empty mission reaches `if check_ok:` with `check_ok` unbound and raises
`UnboundLocalError`; a `ValueError` from a waypoint id propagates; and
otherwise the pending mission is replaced wholesale iff every waypoint
passed every check. -/
def upload_mission (env : MathEnv) (hx : HexaState) (mission : List (String × JsonWP)) :
    Except PyExc (Bool × String × HexaState) :=
  match mission with
  | [] => .error (.unboundLocalError "check_ok")
  | _ :: _ =>
      match upload_mission_loop env hx mission mission 0 [] with
      | .error e => .error e
      | .ok r =>
          if r.1 = true then .ok (true, r.2.1, { hx with pending_mission := r.2.2 })
          else .ok (false, r.2.1, hx)

/-- `Server._request_upload_mission` (dss.py:473-494): owner check, init
point check, then `Hexacopter.upload_mission`; a failed check nacks with
its description, success acks.  The call into `upload_mission` is not
wrapped in any exception handler, so its exceptions escape the request
(and would kill the dispatcher thread). -/
def request_upload_mission (env : MathEnv) (fcn owner msg_id : String)
    (hx : HexaState) (mission : List (String × JsonWP)) :
    Except PyExc (Reply × HexaState) :=
  if ¬ msg_id = owner then
    .ok (.nack fcn ("Requester (" ++ msg_id ++ ") is not the DSS owner"), hx)
  else if hx.init_point_wp.is_init_point = false then
    .ok (.nack fcn "Init point not set", hx)
  else
    match upload_mission env hx mission with
    | .error e => .error e
    | .ok (check_ok, descr, hx2) =>
        if check_ok = false then .ok (.nack fcn descr, hx2)
        else .ok (.ack fcn [], hx2)

/-- All per-waypoint checks of the upload loop, as one predicate on the
`i`-th mission entry: parseable id (so the conversion does not raise),
position format, geofence, contiguous numbering, no action, minimum
speed, heading. -/
def wp_checks_ok (env : MathEnv) (hx : HexaState) (mission : List (String × JsonWP))
    (i : Nat) (id_str : String) (jwp : JsonWP) : Prop :=
  let w := json_to_LLA_wp env hx jwp id_str
  (pyInt? (id_str.replace "id" "")).isSome = true ∧
  ¬ (w.lat = 0 ∧ w.lon = 0) ∧
  (check_geofence env w hx.init_point_wp hx.geofence.radius
    hx.geofence.height_low hx.geofence.height_high).1 = true ∧
  missionHas mission ("id" ++ toString i) = true ∧
  jwp.action.isSome = false ∧
  ¬ w.speed < (0.1 : ℚ) ∧
  ¬ w.heading = -99

instance (env : MathEnv) (hx : HexaState) (mission : List (String × JsonWP))
    (i : Nat) (id_str : String) (jwp : JsonWP) :
    Decidable (wp_checks_ok env hx mission i id_str jwp) := by
  unfold wp_checks_ok
  infer_instance

/-- Declarative reading of mission validity: every waypoint, at its
position in the upload order, passes every check. -/
def missionValid (env : MathEnv) (hx : HexaState)
    (mission : List (String × JsonWP)) : Prop :=
  ∀ i : Fin mission.length,
    wp_checks_ok env hx mission i.1 (mission.get i).1 (mission.get i).2

instance (env : MathEnv) (hx : HexaState) (mission : List (String × JsonWP)) :
    Decidable (missionValid env hx mission) := by
  unfold missionValid
  infer_instance

/-- The wholesale conversion of an accepted mission: every JSON waypoint
normalized by the conversion of `json_to_LLA`, in order. -/
def convertMission (env : MathEnv) (hx : HexaState)
    (mission : List (String × JsonWP)) : List (String × Waypoint) :=
  mission.map (fun p => (p.1, json_to_LLA_wp env hx p.2 p.1))

/-! ## Arbitration server (`src/dss/server/dss.py`, class `Server`) -/

/-- A request message on the vehicle server: the `fcn` verb and the
caller `id`.  Other payload fields are consumed only inside the request
callbacks, which this model keeps abstract (see `mainTick`). -/
structure DssMsg where
  fcn : String
  id : String
  deriving DecidableEq

/-- The server state written by the `_main` dispatcher thread, plus the
scalar flags shared with the task thread (`_task`, `_task_event`,
`hexa.abort_task`) and the hexacopter mode baseline (`hexa.mode`).
`task` is `self._task` (initially `{'fcn': ''}`; the auto-enqueued RTL
task `{'fcn': 'rtl'}` has no `id` key, modelled as `""`). -/
structure DssState where
  in_controls : String
  connected : Bool
  t_last_owner_msg : ℚ
  owner : String
  task : DssMsg
  task_event : Bool
  clearance_state : String
  mode : String
  abort_task : Bool
  logs : List String
  deriving DecidableEq

/-- Per-tick inputs of the `_main` loop: wall clock, gcs heartbeat
liveness (`none` when no heartbeat client is configured), the observed
flight mode and the monitor thread's `expected_flight_mode` flag,
vehicle/rc readings, the configuration flags, and the receive outcome
(`none` is a `zmq.error.Again` timeout). -/
structure DssEnv where
  now : ℚ
  gcs_vital : Option Bool
  flight_mode : String
  expected_flight_mode : Bool
  is_armable : Bool
  channel3 : Option Int
  midstick_check : Bool
  clearance_check : Bool
  crm : Bool
  recv : Option DssMsg
  deriving DecidableEq

/-- `Server.lost_link_to_gcs` (dss.py:192-196). -/
def lost_link_to_gcs (env : DssEnv) : Bool :=
  match env.gcs_vital with
  | some vital => !vital
  | none => false

/-- `Server._is_link_lost` (dss.py:786-806).  Only acts while an
application is connected; with `t_link_lost = 10.0`, a silence strictly
between 5 and 10 seconds logs a degraded-link warning, a silence of 10
seconds or more declares the link lost: the connected flag drops, the
vehicle is stopped, the broker is notified, and authority moves from
`APPLICATION` to `DSS`. -/
def is_link_lost (env : DssEnv) (s : DssState) : Bool × DssState :=
  if s.connected = true then
    let t_link_lost : ℚ := 10
    let t_diff := env.now - s.t_last_owner_msg
    if (0.5 : ℚ) * t_link_lost < t_diff ∧ t_diff < t_link_lost then
      (false, { s with logs := s.logs ++ ["Application link degraded"] })
    else if t_diff ≥ t_link_lost then
      let s1 := { s with
        connected := false,
        logs := s.logs ++ ["Application is disconnected", "hexa.stop"]
                ++ (if env.crm = true then ["crm.app_lost"] else []) }
      if s1.in_controls = "APPLICATION" then
        let s2 := { s1 with
          in_controls := "DSS",
          logs := s1.logs ++ ["Lost link to the dss client; DSS took the CONTROLS"] }
        (true, s2)
      else
        (true, { s1 with logs := s1.logs ++ ["Lost link to the dss client"] })
    else (false, s)
  else (false, s)

/-- The `task` column of the `Server._commands` table (dss.py:115-149):
for each supported verb, whether an asynchronous task callback exists. -/
def dssCommands (fcn : String) : Option Bool :=
  if fcn == "arm_take_off" then some true
  else if fcn == "data_stream" then some false
  else if fcn == "disconnect" then some true
  else if fcn == "dss_srtl" then some true
  else if fcn == "follow_stream" then some true
  else if fcn == "get_armed" then some false
  else if fcn == "get_currentWP" then some false
  else if fcn == "get_flightmode" then some false
  else if fcn == "get_idle" then some false
  else if fcn == "get_info" then some false
  else if fcn == "get_metadata" then some false
  else if fcn == "get_owner" then some false
  else if fcn == "get_posD" then some false
  else if fcn == "get_PWM" then some false
  else if fcn == "gogo" then some true
  else if fcn == "heart_beat" then some false
  else if fcn == "land" then some true
  else if fcn == "photo" then some false
  else if fcn == "reset_dss_srtl" then some false
  else if fcn == "rtl" then some true
  else if fcn == "set_default_speed" then some false
  else if fcn == "set_geofence" then some false
  else if fcn == "set_gimbal" then some false
  else if fcn == "set_gripper" then some true
  else if fcn == "set_heading" then some false
  else if fcn == "set_init_point" then some false
  else if fcn == "set_owner" then some false
  else if fcn == "set_pattern" then some false
  else if fcn == "set_vel_BODY" then some false
  else if fcn == "upload_mission_LLA" then some false
  else if fcn == "upload_mission_NED" then some false
  else if fcn == "upload_mission_XYZ" then some false
  else if fcn == "who_controls" then some false
  else if fcn == "glana" then some false
  else none

/-- The type of the synchronous request callbacks (`'request'` column of
`Server._commands`), kept as a parameter of the dispatch model: a verb,
the message and the state give a reply and a new state. -/
def DssHandlers : Type := String → DssMsg → DssState → Reply × DssState

/-- The dispatch fragment of `Server._main` (dss.py:1053-1083): an
unsupported verb nacks; a verb with a task is nacked with `"another task
is still running"` while a task runs, otherwise its request is tried and,
on ack, the message becomes the active task; a verb without a task always
goes straight to its request callback. -/
def dssDispatch (req : DssHandlers) (msg : DssMsg) (s : DssState) : Reply × DssState :=
  match dssCommands msg.fcn with
  | none => (.nack msg.fcn "request not supported", s)
  | some hasTask =>
      if hasTask = true then
        if s.task_event = true then (.nack msg.fcn "another task is still running", s)
        else
          let r := req msg.fcn msg s
          if is_ack r.1 = true then (r.1, { r.2 with task := msg, task_event := true })
          else r
      else req msg.fcn msg s

/-- The handover condition of the `PILOT` branch (dss.py:977-1003): the
final `else` is reached only when the vehicle is armable, gcs heartbeats
are present, the flight mode is GUIDED, rc channel 3 is available and (if
checked) at mid-stick, an application is connected, and the safety pilot
has given clearance. -/
def pilot_handover_ready (env : DssEnv) (s : DssState) : Bool :=
  env.is_armable && !lost_link_to_gcs env && (env.flight_mode == "GUIDED") &&
  env.channel3.isSome &&
  (!env.midstick_check ||
    (match env.channel3 with
     | some c => decide (1400 < c) && decide (c < 1600)
     | none => false)) &&
  s.connected && (s.clearance_state == "CLEARED")

/-- The `DSS` branch of `Server._main` (dss.py:1007-1023).  Returns the
new state and whether the iteration `continue`s: while the safety layer
has the controls, a completed RTL task waits for the pilot (`continue`),
a running non-RTL task is asked to abort, and an idle task slot receives
the auto-enqueued `{'fcn': 'rtl'}` task. -/
def dssControlsBranch (s : DssState) : DssState × Bool :=
  if s.in_controls = "DSS" then
    if s.task.fcn = "rtl" then
      if s.task_event = true then (s, false)
      else ({ s with logs := s.logs ++ ["RTL completed. Waiting for PILOT to take CONTROLS"] },
            true)
    else
      if s.task_event = true then ({ s with abort_task := true }, false)
      else ({ s with abort_task := false, task := ⟨"rtl", ""⟩, task_event := true }, false)
  else (s, false)

/-- The ZMQ phase of `Server._main` (dss.py:1037-1083): a receive timeout
just runs the link-loss check; a received message refreshes the owner
silence clock, runs the link-loss check, latches the connected flag on
the first owner message, and is dispatched. -/
def zmqPhase (req : DssHandlers) (env : DssEnv) (s : DssState) : DssState × Option Reply :=
  match env.recv with
  | none => ((is_link_lost env s).2, none)
  | some msg =>
      let s1 := if msg.id = s.owner then { s with t_last_owner_msg := env.now } else s
      let lost := is_link_lost env s1
      if lost.1 = true then (lost.2, none)
      else
        let s2 := lost.2
        let s3 :=
          if s2.connected = false ∧ msg.id = s2.owner ∧ ¬ msg.id = "crm" then
            { s2 with connected := true, logs := s2.logs ++ ["Application is connected"] }
          else s2
        let r := dssDispatch req msg s3
        (r.2, some r.1)

/-- One iteration of the `Server._main` loop (dss.py:956-1083): gcs
heartbeat check, flight-mode check, `PILOT` handover, `DSS` safety-layer
branch, then the ZMQ receive/dispatch phase.  A `continue` in the source
ends the iteration without a reply. -/
def mainTick (req : DssHandlers) (env : DssEnv) (s : DssState) : DssState × Option Reply :=
  if s.in_controls = "APPLICATION" ∧ lost_link_to_gcs env = true then
    let s1 := { s with
      in_controls := "DSS",
      logs := s.logs ++ ["Lost link to the gcs heartbeats; DSS taking the CONTROLS"] }
    (s1, none)
  else if (s.in_controls = "APPLICATION" ∨ s.in_controls = "DSS") ∧
      env.expected_flight_mode = false then
    let s1 := { s with
      mode := env.flight_mode,
      in_controls := "PILOT",
      clearance_state := if env.clearance_check = true then "WAITING" else "CLEARED",
      logs := s.logs ++ ["Unexpected flight mode; PILOT took the CONTROLS"] }
    (s1, none)
  else if s.in_controls = "PILOT" ∧ pilot_handover_ready env s = true then
    let s1 := { s with
      mode := "GUIDED",
      in_controls := "APPLICATION",
      logs := s.logs ++ ["APPLICATION got the the CONTROLS"] }
    (s1, none)
  else
    let b := dssControlsBranch s
    if b.2 = true then (b.1, none)
    else zmqPhase req env b.1

/-- `Server._request_who_controls` (dss.py:242-246): always ack, carrying
the current `in_controls` value. -/
def request_who_controls (msg : DssMsg) (s : DssState) : Reply × DssState :=
  (.ack msg.fcn [("in_controls", .str s.in_controls)], s)

/-- The server state after `Server.__init__` (dss.py:35, 64, 152-162):
pilot has the controls, no application connected, owner `'da000'`, empty
task, clearance waiting (when checked). -/
def dssInit (clearance_check : Bool) : DssState :=
  { in_controls := "PILOT", connected := false, t_last_owner_msg := 0,
    owner := "da000", task := ⟨"", ""⟩, task_event := false,
    clearance_state := if clearance_check then "WAITING" else "CLEARED",
    mode := "GUIDED", abort_task := false, logs := [] }

/-- The three authority states of the arbitration layer (the source spells
the safety layer `'DSS'`). -/
def inControlsValid (s : DssState) : Prop :=
  s.in_controls = "PILOT" ∨ s.in_controls = "APPLICATION" ∨ s.in_controls = "DSS"

/-- None of the synchronous request callbacks of `Server` assigns
`self._in_controls` (the only writers are `__init__` and the `_main`
monitor phases and `_is_link_lost`); a handler family with this property
is what `mainTick` is instantiated with. -/
def handlersPreserveControls (req : DssHandlers) : Prop :=
  ∀ fcn msg s, ((req fcn msg s).2).in_controls = s.in_controls

/-! ## Request socket (`src/dss/auxiliaries/zmq.py`, class `Req`) -/

/-- The `Req` socket state visible to `_send_and_receive`:
`generation` counts how many times `connect()` has been run (so
`reconnect` — close then connect, zmq.py:267-270 — bumps it), and
`event_set` is `self._event` (set on every successful exchange, read by
the heartbeat thread). -/
structure ReqSocket where
  ip : String
  port : Int
  generation : Nat
  event_set : Bool
  deriving DecidableEq

/-- Outcome of `socket.send_json`. -/
inductive SendOutcome where
  | sent
  | zmqError
  deriving DecidableEq

/-- Outcome of `socket.recv_json`: a reply payload, or the
`zmq.error.Again` receive timeout. -/
inductive RecvOutcome where
  | reply (payload : String)
  | again
  deriving DecidableEq

/-- The transport errors `send_and_receive` can raise:
`dss.auxiliaries.exception.NoAnswer(msg, ip, port)`. -/
inductive ReqError where
  | NoAnswer (ip : String) (port : Int)
  deriving DecidableEq

/-- `Req.reconnect` (zmq.py:267-270): close the underlying connection and
open a fresh one. -/
def req_reconnect (s : ReqSocket) : ReqSocket := { s with generation := s.generation + 1 }

/-- `Req._send_and_receive` (zmq.py:272-291), parameterized by the
outcomes of the two socket operations and by `json.loads` on the reply
payload: a send error raises `NoAnswer` as-is; a receive timeout
reconnects and raises `NoAnswer`; a received reply is parsed, the event
flag is set, and the parsed reply is returned. -/
def send_and_receive (json_loads : String → Reply) (s : ReqSocket)
    (send : SendOutcome) (recv : RecvOutcome) : ReqSocket × Except ReqError Reply :=
  match send with
  | .zmqError => (s, .error (.NoAnswer s.ip s.port))
  | .sent =>
      match recv with
      | .again => (req_reconnect s, .error (.NoAnswer s.ip s.port))
      | .reply payload => ({ s with event_set := true }, .ok (json_loads payload))

/-- Phases of one `send_and_receive` call from one caller thread:
`Req.send_and_receive` (zmq.py:293-295) runs `_send_and_receive` inside
`with self._mutex`, so a call is `waiting` until it acquires the mutex,
`outstanding` (request on the wire) while it holds it, and `finished`
after release. -/
inductive CallPhase where
  | idle
  | waiting
  | outstanding
  | finished
  deriving DecidableEq

/-- The callers of one shared `Req` socket: which thread (if any) holds
`self._mutex`, and each thread's phase. -/
structure ReqCallers where
  holder : Option Nat
  phase : Nat → CallPhase

/-- Pointwise phase update. -/
def setPhase (f : Nat → CallPhase) (i : Nat) (p : CallPhase) : Nat → CallPhase :=
  fun j => if j = i then p else f j

/-- Interleaving semantics of concurrent `send_and_receive` calls on one
socket: a thread starts a call, acquires the free mutex, and releases it
when its exchange completes. -/
inductive ReqStep : ReqCallers → ReqCallers → Prop where
  | start (i : Nat) (c : ReqCallers) :
      c.phase i = .idle →
      ReqStep c ⟨c.holder, setPhase c.phase i .waiting⟩
  | acquire (i : Nat) (c : ReqCallers) :
      c.phase i = .waiting → c.holder = none →
      ReqStep c ⟨some i, setPhase c.phase i .outstanding⟩
  | release (i : Nat) (c : ReqCallers) :
      c.phase i = .outstanding → c.holder = some i →
      ReqStep c ⟨none, setPhase c.phase i .finished⟩

/-- Initial caller system: nobody holds the mutex, no call started. -/
def reqInit : ReqCallers := ⟨none, fun _ => .idle⟩

/-- Reachability under the interleaving semantics. -/
def ReqReachable (c : ReqCallers) : Prop := Relation.ReflTransGen ReqStep reqInit c

/-- Whoever is mid-exchange holds the mutex. -/
def mutexInv (c : ReqCallers) : Prop :=
  ∀ i, c.phase i = .outstanding → c.holder = some i

/-- At most one request is outstanding at any time. -/
def oneOutstanding (c : ReqCallers) : Prop :=
  ∀ i j, c.phase i = .outstanding → c.phase j = .outstanding → i = j

/-! ## Concrete fixtures used by counterexamples and witnesses -/

/-- Capability count of a record (size of its casefolded capability set). -/
def capCount (c : ClientRecord) : Nat := (capaSet (c.capabilities.getD [])).length

/-- A concrete instantiation of the float-function parameters (values are
irrelevant to every checked property). -/
def mathEnvC : MathEnv :=
  { sqrt := fun _ => 0, cos := fun _ => 1, sin := fun _ => 0, atan := fun _ => 0,
    pi := 355 / 113 }

/-- A set init point (as left by `set_init_point`). -/
def initPointC : Waypoint :=
  { id_str := "id_NOT_SET", lat := 58, lon := 16, alt := 30, heading := 90, speed := 0,
    is_init_point := true }

/-- A previously accepted pending waypoint. -/
def oldWpC : Waypoint := { id_str := "id0", lat := 58, lon := 16, alt := 10, speed := 5 }

/-- A vehicle state with the init point set, the default geofence and a
nonempty pending mission. -/
def hexaC : HexaState :=
  { init_point_wp := initPointC, geofence := {}, default_speed := 5,
    pending_mission := [("id0", oldWpC)] }

/-- A well-formed relative-altitude LLA waypoint at the init point. -/
def jwpC (alt : ℚ) : JsonWP :=
  { pos := .lla 58 16 alt "relative", heading := some (.num 0), speed := some 5,
    action := none }

/-- The mission of the numbering test: waypoints `id0, id1, id3` with
`id2` missing. -/
def mission013 : List (String × JsonWP) :=
  [("id0", jwpC 10), ("id1", jwpC 12), ("id3", jwpC 14)]

/-- A single-waypoint mission that passes every check. -/
def missionGood : List (String × JsonWP) := [("id0", jwpC 10)]

/-- A registry record created by `CRM._request_launch_app` (crm.py:439):
no `capabilities` key, empty ip/port (the port, `''` in Python, is
modelled as `0`; it is never read on the checked paths). -/
def recDa001 : ClientRecord :=
  { name := "app_noise.py", type := "da", capabilities := none, desc := "",
    owner := "crm", ip := "", port := 0, timestamp := 100 }

/-- A fresh, unleased vehicle record with two capabilities. -/
def recDss002 : ClientRecord :=
  { name := "crm_dss.py", type := "dss", capabilities := some ["RGB", "SIM"], desc := "",
    owner := "crm", ip := "10.44.160.10", port := 5560, timestamp := 100 }

/-- Registry holding a capability-less launched app and an eligible
vehicle. -/
def crmStC5 : CrmState :=
  { clients := [("da001", recDa001), ("dss002", recDss002)], nextIndex := 3,
    task_queue := [], logs := [] }

/-- Capability request for `RGB` from the registered app. -/
def msgC5 : GetDroneMsg := { id := "da001", force := none, capabilities := some ["RGB"] }

/-- A registered application record (for `get_drone` requesters). -/
def recApp : ClientRecord :=
  { name := "app_noise.py", type := "da", capabilities := some [], desc := "",
    owner := "crm", ip := "10.44.160.2", port := 5562, timestamp := 100 }

/-- An unleased vehicle record last seen at `t = 100` (so exactly 20
seconds old at `now = 120`). -/
def recC6target : ClientRecord := { recDss002 with ip := "10.44.160.3", port := 5561 }

/-- Registry with a requester and an unleased vehicle last seen exactly
20 seconds before `now = 120`. -/
def crmStC6 : CrmState :=
  { clients := [("da001", recApp), ("dss002", recC6target)],
    nextIndex := 3, task_queue := [], logs := [] }

/-- Force request for the boundary-age vehicle. -/
def msgC6 : GetDroneMsg := { id := "da001", force := some "dss002", capabilities := none }

/-- A stale vehicle record (last seen at `t = 0`). -/
def recStaleDss : ClientRecord :=
  { name := "crm_dss.py", type := "dss", capabilities := some ["SIM"], desc := "",
    owner := "crm", ip := "10.44.160.9", port := 5559, timestamp := 0 }

/-- Registry holding only the stale vehicle. -/
def crmStC8 : CrmState :=
  { clients := [("dss001", recStaleDss)], nextIndex := 2, task_queue := [], logs := [] }

/-- A fresh-id vehicle registration colliding on ip with `recStaleDss`. -/
def msgC8 : RegisterMsg :=
  { name := "crm_dss.py", desc := "", type := "dss", ip := "10.44.160.9", port := 5559,
    capabilities := ["SIM"], id := none }

/-- Concrete stand-in for the external `valid_ip` check. -/
def ipOkC : String → Bool := fun _ => true

/-- A small registry for the staleness witness: one record 20 s silent,
one 5 s silent, the latter owned by the former. -/
def crmStC7 : CrmState :=
  { clients := [("da001", { recApp with timestamp := 80 }),
                ("dss002", { recDss002 with owner := "da001", timestamp := 95 })],
    nextIndex := 3, task_queue := [], logs := [] }

/-- Inert request callbacks: reply nack, leave the state unchanged (used
to instantiate the abstract handler family at concrete ticks). -/
def req0 : DssHandlers := fun fcn _ s => (.nack fcn "not modelled", s)

/-- Tick input: gcs heartbeat client configured but not vital, observed
flight mode diverged from the commanded one, receive timeout. -/
def envC2 : DssEnv :=
  { now := 0, gcs_vital := some false, flight_mode := "LAND", expected_flight_mode := false,
    is_armable := true, channel3 := some 1500, midstick_check := true,
    clearance_check := true, crm := true, recv := none }

/-- Server state: the application has the controls and is connected. -/
def stateC2 : DssState :=
  { in_controls := "APPLICATION", connected := true, t_last_owner_msg := 0,
    owner := "da001", task := ⟨"", ""⟩, task_event := false,
    clearance_state := "WAITING", mode := "GUIDED", abort_task := false, logs := [] }

/-- Like `envC2` but with the gcs heartbeat link healthy, so only the
flight-mode divergence fires. -/
def envFmC : DssEnv := { envC2 with gcs_vital := some true }

/-- Tick input without gcs heartbeats, expected flight mode, receive
timeout, 15 s after the last owner message of `stateC2`. -/
def envLostC : DssEnv :=
  { now := 15, gcs_vital := none, flight_mode := "GUIDED", expected_flight_mode := true,
    is_armable := true, channel3 := some 1500, midstick_check := true,
    clearance_check := true, crm := true, recv := none }

/-- Same tick input 7 s after the last owner message (degraded zone). -/
def envWarnC : DssEnv := { envLostC with now := 7 }

/-- Safety-layer state with an idle task slot. -/
def stateDssC : DssState :=
  { stateC2 with in_controls := "DSS", connected := false }

/-- Busy server state: a task is currently executing. -/
def stateBusyC : DssState := { stateC2 with task := ⟨"land", "da001"⟩, task_event := true }

/-- A parse function for reply payloads (stand-in for `json.loads`). -/
def jsonLoadsC : String → Reply := fun s => .ack s []

/-- A live request socket. -/
def sockC : ReqSocket := { ip := "10.44.160.10", port := 5560, generation := 0, event_set := false }

/-- Caller system after thread 0 started a call. -/
def reqC0 : ReqCallers := ⟨none, setPhase (fun _ => .idle) 0 .waiting⟩

/-- Caller system after thread 0 acquired the mutex (request outstanding). -/
def reqC1 : ReqCallers := ⟨some 0, setPhase reqC0.phase 0 .outstanding⟩

/-- Registry where every record has a capabilities field: a requester
and one eligible vehicle. -/
def crmStC5w : CrmState :=
  { clients := [("da001", recApp), ("dss002", recDss002)], nextIndex := 3,
    task_queue := [], logs := [] }

/-- Registry with no vehicle at all (the requester only). -/
def crmStC5n : CrmState :=
  { clients := [("da001", recApp)], nextIndex := 2, task_queue := [], logs := [] }

/-- Registry in which the vehicle is already leased to `da001` (its
`owner` is no longer the broker). -/
def crmStC6b : CrmState :=
  { crmStC6 with
    clients := [("da001", recApp), ("dss002", { recC6target with owner := "da001" })] }

/-! ## Theorems -/

/-- Keys-unique dict lookup: a present binding is what `find?` returns. -/
theorem dictGet_of_mem {l : List (String × ClientRecord)} {k : String} {v : ClientRecord}
    (hnd : (l.map Prod.fst).Nodup) (hmem : (k, v) ∈ l) : dictGet l k = some v := by
  induction l with
  | nil => cases hmem
  | cons p rest ih =>
      simp only [List.map_cons, List.nodup_cons] at hnd
      rcases List.mem_cons.mp hmem with heq | htail
      · subst heq
        simp [dictGet, List.find?]
      · have hne : ¬(p.1 == k) = true := by
          intro hbeq
          have hpk : p.1 = k := by simpa using hbeq
          refine hnd.1 ?_
          rw [hpk]
          exact List.mem_map_of_mem Prod.fst htail
        simp only [dictGet, List.find?]
        rw [Bool.of_not_eq_true hne]
        exact ih hnd.2 htail

/-- Claim C4 — while a task is executing, any verb with an associated
task is nacked "another task is still running" with the whole state (in
particular the running task and the pending task slot) unchanged, and
nothing is enqueued; verbs without a task are always dispatched straight
to their synchronous request callback. -/
theorem C4_task_exclusion (req : DssHandlers) (msg : DssMsg) (s : DssState) :
    (dssCommands msg.fcn = some true → s.task_event = true →
      dssDispatch req msg s = (.nack msg.fcn "another task is still running", s)) ∧
    (dssCommands msg.fcn = some false →
      dssDispatch req msg s = req msg.fcn msg s) := by
  constructor
  · intro htask hbusy
    simp [dssDispatch, htask, hbusy]
  · intro hno
    simp [dssDispatch, hno]

/-- Witness for C4: with a task running, `arm_take_off` (a task verb) is
nacked and the state is untouched, while `who_controls` (no task) goes to
its request callback. -/
theorem C4_task_exclusion_witness :
    dssDispatch req0 ⟨"arm_take_off", "da001"⟩ stateBusyC =
      (.nack "arm_take_off" "another task is still running", stateBusyC) ∧
    dssDispatch req0 ⟨"who_controls", "da001"⟩ stateBusyC =
      req0 "who_controls" ⟨"who_controls", "da001"⟩ stateBusyC := by
  constructor
  · exact (C4_task_exclusion req0 ⟨"arm_take_off", "da001"⟩ stateBusyC).1
      (by decide) (by decide)
  · exact (C4_task_exclusion req0 ⟨"who_controls", "da001"⟩ stateBusyC).2 (by decide)

/-- Claim C10 — `upload_mission` is not total: for the empty mission the
per-waypoint loop never assigns `check_ok`, so the function raises
`UnboundLocalError` instead of returning an `(ok, description)` pair, and
the server request path propagates the exception instead of producing an
ack or nack reply. -/
theorem C10_empty_mission_unbound_local (env : MathEnv) (hx : HexaState) :
    upload_mission env hx [] = .error (.unboundLocalError "check_ok") ∧
    ∀ fcn owner,
      request_upload_mission env fcn owner owner
        { hx with init_point_wp := { hx.init_point_wp with is_init_point := true } } [] =
      .error (.unboundLocalError "check_ok") := by
  refine ⟨rfl, fun fcn owner => ?_⟩
  simp [request_upload_mission, upload_mission]

/-- Claim C8 (code bug) — a fresh vehicle registration whose ip collides
with a stale (≥ 20 s) record deletes the stale record inside the live
dict iteration: CPython then raises `RuntimeError: dictionary changed
size during iteration`, the dispatcher catches it, and the caller gets
`nack("register", "unexpected exception")` with no new id allocated —
although the collision log line itself says the stale record was
"replaced".  A fresh (< 20 s) collision nacks as specified. -/
theorem C8_register_stale_ip_bug :
    request_register ipOkC 25 crmStC8 msgC8 =
      ({ crmStC8 with
          clients := [],
          logs := ["stale dss with same ip found and replaced"] },
       .error (.runtimeError "dictionary changed size during iteration")) ∧
    (crm_handle_register ipOkC 25 crmStC8 msgC8).2 =
      .nack "register" "unexpected exception" ∧
    (request_register ipOkC 10 crmStC8 msgC8).2 =
      .ok (.nack "register" "dss with same ip found") := by
  refine ⟨by decide!, by decide!,
    by decide!⟩

/-- Counterexample to C2 as stated: with the application in controls, the
gcs heartbeat link lost, and the observed flight mode diverged from the
commanded one, the next main-loop tick sets authority to `DSS` (the gcs
check runs before the flight-mode check and ends the iteration), not to
`PILOT`. -/
theorem C2_gcs_first_counterexample :
    stateC2.in_controls = "APPLICATION" ∧
    envC2.expected_flight_mode = false ∧
    ¬ ((mainTick req0 envC2 stateC2).1).in_controls = "PILOT" ∧
    ((mainTick req0 envC2 stateC2).1).in_controls = "DSS" := by
  refine ⟨rfl, rfl, by decide!, by decide!⟩

/-- Counterexample to C3 as stated: the empty mission is an uploaded
mission for which `upload_mission` neither accepts nor returns a nack
description — it raises `UnboundLocalError`. -/
theorem C3_empty_mission_counterexample :
    upload_mission mathEnvC hexaC [] = .error (.unboundLocalError "check_ok") := by
  decide!

/-- Counterexample to C5 as stated: with a registry that contains a
record without a `capabilities` key (exactly what `launch_app` creates)
alongside a fresh eligible vehicle, `get_drone(capabilities=["RGB"])`
raises `KeyError` and the caller gets `nack("unexpected exception")` —
neither the eligible minimal drone nor the specified
"no available drone with requested capabilities" nack. -/
theorem C5_get_drone_counterexample :
    (request_get_drone 100 crmStC5 msgC5).2 = .error (.keyError "capabilities") ∧
    (crm_handle_get_drone 100 crmStC5 msgC5).2 =
      .nack "get_drone" "unexpected exception" ∧
    ("dss002", recDss002) ∈ crmStC5.clients ∧
    eligibleDrone 100 (capaSet ["RGB"]) recDss002 = true := by
  refine ⟨by decide!, by decide!,
    by decide!, by decide!⟩

/-- Counterexample to C6 as stated: a force target whose record is
exactly 20 seconds old is not "fresher than 20 seconds", yet the lease is
granted (the stale nack fires only strictly beyond 20 s). -/
theorem C6_force_boundary_counterexample :
    dictGet crmStC6.clients "dss002" = some recC6target ∧
    ¬ ((120 : ℚ) - recC6target.timestamp < 20) ∧
    request_get_drone 120 crmStC6 msgC6 =
      ({ crmStC6 with task_queue := [.set_owner "dss002" "da001"] },
       .ok (.ack "get_drone"
         [("id", .str "dss002"), ("ip", .str "10.44.160.3"), ("port", .int 5561)])) := by
  refine ⟨by decide!, by decide!,
    by decide!⟩

/-- The deletion loop removes exactly the collected ids from the
registry, in terms of a single filter. -/
theorem delStaleLoop_clients (ids : List String) (st : CrmState) :
    (delStaleLoop ids st).clients = st.clients.filter (fun p => !(ids.contains p.1)) := by
  induction ids generalizing st with
  | nil => simp [delStaleLoop]
  | cons d rest ih =>
      rw [delStaleLoop, ih]
      simp only [List.filter_filter]
      refine List.filter_congr ?_
      intro p _
      by_cases h : p.1 = d <;> simp [h, List.contains_cons, Bool.not_or, Bool.and_comm]

/-- The deletion loop only appends to the log. -/
theorem delStaleLoop_logs_mono (ids : List String) (st : CrmState) (x : String)
    (hx : x ∈ st.logs) : x ∈ (delStaleLoop ids st).logs := by
  induction ids generalizing st with
  | nil => exact hx
  | cons d rest ih =>
      rw [delStaleLoop]
      exact ih _ (by simp [hx])

/-- While deleting `idD`, the loop logs the ownership warning for every
still-present record owned by `idD` whose key is not itself slated for
deletion. -/
theorem delStaleLoop_warning (ids : List String) (st : CrmState) (idD j : String)
    (d : ClientRecord) (hid : idD ∈ ids) (hj : (j, d) ∈ st.clients)
    (hjnot : ¬ j ∈ ids) (hown : d.owner = idD) :
    ("CRM is deleting app " ++ idD ++ " that is owner of dss " ++ j)
      ∈ (delStaleLoop ids st).logs := by
  induction ids generalizing st with
  | nil => cases hid
  | cons d0 rest ih =>
      rw [delStaleLoop]
      rcases List.mem_cons.mp hid with heq | htail
      · subst heq
        refine delStaleLoop_logs_mono rest _ _ ?_
        have hw : ("CRM is deleting app " ++ idD ++ " that is owner of dss " ++ j)
            ∈ ownerWarnings st.clients idD := by
          refine List.mem_map.mpr ⟨(j, d), ?_, rfl⟩
          refine List.mem_filter.mpr ⟨hj, ?_⟩
          simp [hown]
        simp [hw]
      · have hj2 : (j, d) ∈ st.clients.filter (fun p => !(p.1 == d0)) := by
          refine List.mem_filter.mpr ⟨hj, ?_⟩
          have hne : ¬ j = d0 := fun h => hjnot (h ▸ List.mem_cons_self _ _)
          simp [hne]
        exact ih _ htail hj2 (fun h => hjnot (List.mem_cons_of_mem _ h))

/-- Claim C7 — on each receive-timeout tick the staleness pass deletes
exactly the records silent for more than 15 seconds: the deleted-id list
enumerates precisely the stale ids, each exactly once; the surviving
registry is the original minus the stale records, every survivor kept
verbatim (so an orphaned `owner` field is never auto-fixed); and when a
deleted record owns a live record, a warning is logged while the owned
record survives untouched. -/
theorem C7_stale_eviction (now : ℚ) (st : CrmState)
    (hnd : (st.clients.map Prod.fst).Nodup) :
    (∀ id_, id_ ∈ (delStaleClients now st).2 ↔
      ∃ c, (id_, c) ∈ st.clients ∧ now - c.timestamp > 15) ∧
    (delStaleClients now st).2.Nodup ∧
    ((delStaleClients now st).1).clients =
      st.clients.filter (fun p => !(staleClient now p.2)) ∧
    crmTimeoutTick now st = (delStaleClients now st).1 ∧
    (∀ idD cD j d, (idD, cD) ∈ st.clients → staleClient now cD = true →
      (j, d) ∈ st.clients → staleClient now d = false → d.owner = idD →
      ("CRM is deleting app " ++ idD ++ " that is owner of dss " ++ j)
        ∈ ((delStaleClients now st).1).logs ∧
      (j, d) ∈ ((delStaleClients now st).1).clients) := by
  have hinj := List.inj_on_of_nodup_map hnd
  have hkey : ∀ p, p ∈ st.clients →
      (¬ staleClient now p.2 = true) →
      ¬ p.1 ∈ (st.clients.filter (fun q => staleClient now q.2)).map Prod.fst := by
    intro p hp hs hmem
    obtain ⟨q, hq, hq1⟩ := List.mem_map.mp hmem
    have hq2 := List.mem_filter.mp hq
    have : q = p := hinj hq2.1 hp hq1
    exact hs (this ▸ hq2.2)
  have hmemD : ∀ p, p ∈ st.clients → staleClient now p.2 = true →
      p.1 ∈ (st.clients.filter (fun q => staleClient now q.2)).map Prod.fst := by
    intro p hp hs
    exact List.mem_map_of_mem Prod.fst (List.mem_filter.mpr ⟨hp, hs⟩)
  refine ⟨?_, ?_, ?_, rfl, ?_⟩
  · intro id_
    constructor
    · intro hmem
      obtain ⟨q, hq, hq1⟩ := List.mem_map.mp hmem
      have hq2 := List.mem_filter.mp hq
      exact ⟨q.2, by simpa [← hq1] using hq2.1, by simpa [staleClient] using hq2.2⟩
    · rintro ⟨c, hc, hstale⟩
      exact hmemD (id_, c) hc (by simpa [staleClient] using hstale)
  · exact hnd.sublist (List.Sublist.map Prod.fst (List.filter_sublist _))
  · rw [show (delStaleClients now st).1 = delStaleLoop
      ((st.clients.filter (fun p => staleClient now p.2)).map Prod.fst) st from rfl]
    rw [delStaleLoop_clients]
    refine List.filter_congr ?_
    intro p hp
    rcases hs : staleClient now p.2 with _ | _
    · simp only [List.elem_eq_mem, Bool.not_eq_true]
      simp [hkey p hp (by simp [hs])]
    · simp only [List.elem_eq_mem, Bool.not_eq_true]
      simp [hmemD p hp hs]
  · intro idD cD j d hidD hstale hj hd hown
    have hjD : ¬ j ∈ (st.clients.filter (fun q => staleClient now q.2)).map Prod.fst :=
      hkey (j, d) hj (by simp [hd])
    constructor
    · exact delStaleLoop_warning _ st idD j d (hmemD (idD, cD) hidD hstale) hj hjD hown
    · rw [show (delStaleClients now st).1 = delStaleLoop
        ((st.clients.filter (fun p => staleClient now p.2)).map Prod.fst) st from rfl]
      rw [delStaleLoop_clients]
      refine List.mem_filter.mpr ⟨hj, ?_⟩
      simpa using hjD

/-- Witness for C7 at a concrete registry: the 20-seconds-silent app is
deleted, the 5-seconds-silent vehicle survives verbatim, and the
orphaned-owner warning is logged. -/
theorem C7_stale_eviction_witness :
    "da001" ∈ (delStaleClients 100 crmStC7).2 ∧
    ((delStaleClients 100 crmStC7).1).clients =
      crmStC7.clients.filter (fun p => !(staleClient 100 p.2)) ∧
    ("CRM is deleting app " ++ "da001" ++ " that is owner of dss " ++ "dss002")
      ∈ ((delStaleClients 100 crmStC7).1).logs := by
  obtain ⟨hiff, hnodup, hclients, htick, hwarn⟩ :=
    C7_stale_eviction 100 crmStC7 (by decide!)
  refine ⟨?_, hclients, ?_⟩
  · exact (hiff "da001").mpr ⟨{ recApp with timestamp := 80 }, by decide!, by decide!⟩
  · exact (hwarn "da001" { recApp with timestamp := 80 } "dss002"
      { recDss002 with owner := "da001", timestamp := 95 }
      (by decide!) (by decide!) (by decide!) (by decide!) (by decide!)).1

/-- Claim C6 (amended) — the force path of `get_drone`: the lease is
granted iff the forced id exists, its owner is the broker (`"crm"`), and
its record is at most 20 seconds old (the "stale" nack fires only
strictly beyond 20 s, so a record aged exactly 20 s is still granted);
an already-leased id (owner no longer `"crm"`) is nacked before release;
on grant the synchronous reply carries the target id, ip and port while
the `set_owner` change is appended to the asynchronous task queue. -/
theorem C6_force_lease_amended (now : ℚ) (st : CrmState) (msg : GetDroneMsg)
    (force : String) (hforce : msg.force = some force)
    (hreg : (dictGet st.clients msg.id).isSome = true) :
    (dictGet st.clients force = none →
      request_get_drone now st msg =
        (st, .ok (.nack "get_drone" "unknown forced id"))) ∧
    (∀ c, dictGet st.clients force = some c →
      (¬ c.owner = "crm" →
        request_get_drone now st msg =
          (st, .ok (.nack "get_drone" "forced id not available"))) ∧
      (c.owner = "crm" → now - c.timestamp > 20 →
        request_get_drone now st msg =
          (st, .ok (.nack "get_drone" "forced id is stale"))) ∧
      (c.owner = "crm" → now - c.timestamp ≤ 20 →
        request_get_drone now st msg =
          ({ st with task_queue := st.task_queue ++ [.set_owner force msg.id] },
           .ok (.ack "get_drone"
             [("id", .str force), ("ip", .str c.ip), ("port", .int c.port)])))) := by
  obtain ⟨me, hme⟩ := Option.isSome_iff_exists.mp hreg
  refine ⟨?_, ?_⟩
  · intro hnone
    simp [request_get_drone, hforce, hme, hnone]
  · intro c hc
    refine ⟨?_, ?_, ?_⟩
    · intro hown
      simp [request_get_drone, hforce, hme, hc, hown]
    · intro hown hstale
      simp [request_get_drone, hforce, hme, hc, hown, hstale]
    · intro hown hfresh
      simp [request_get_drone, hforce, hme, hc, hown, not_lt.mpr hfresh]

/-- Witness for C6 (amended) at concrete registries: the grant at age
exactly 20 s with the synchronous connection info and the queued
`set_owner`, and the rejection of a re-grant while the vehicle is leased. -/
theorem C6_force_lease_witness :
    request_get_drone 120 crmStC6 msgC6 =
      ({ crmStC6 with task_queue := [.set_owner "dss002" "da001"] },
       .ok (.ack "get_drone"
         [("id", .str "dss002"), ("ip", .str recC6target.ip),
          ("port", .int recC6target.port)])) ∧
    request_get_drone 120 crmStC6b msgC6 =
      (crmStC6b, .ok (.nack "get_drone" "forced id not available")) := by
  constructor
  · have h := ((C6_force_lease_amended 120 crmStC6 msgC6 "dss002" rfl
      (by decide!)).2 recC6target (by decide!)).2.2 (by decide!) (by decide!)
    simpa using h
  · exact ((C6_force_lease_amended 120 crmStC6b msgC6 "dss002" rfl
      (by decide!)).2 { recC6target with owner := "da001" } (by decide!)).1
      (by decide!)

/-- A single interleaving step preserves the lock invariant: whoever is
mid-exchange holds the mutex. -/
theorem ReqStep_mutexInv {a b : ReqCallers} (h : ReqStep a b) (ha : mutexInv a) :
    mutexInv b := by
  cases h with
  | start i c hidle =>
      intro j hj
      by_cases hji : j = i
      · subst hji
        simp [setPhase] at hj
      · have hj2 : a.phase j = .outstanding := by simpa [setPhase, hji] using hj
        exact ha j hj2
  | acquire i c hw hn =>
      intro j hj
      by_cases hji : j = i
      · subst hji
        rfl
      · have hj2 : a.phase j = .outstanding := by simpa [setPhase, hji] using hj
        exact absurd (ha j hj2) (by simp [hn])
  | release i c ho hh =>
      intro j hj
      by_cases hji : j = i
      · subst hji
        simp [setPhase] at hj
      · have hj2 : a.phase j = .outstanding := by simpa [setPhase, hji] using hj
        have hja := ha j hj2
        rw [hh] at hja
        exact absurd (Option.some.inj hja).symm hji

/-- Claim C9 — `send_and_receive`: a receive timeout reconnects the
underlying connection (a fresh connection generation) and the call fails
with `NoAnswer`; a successful exchange returns the parsed reply; and the
per-socket mutex serializes calls, so in every reachable interleaving at
most one request is outstanding at a time. -/
theorem C9_send_and_receive :
    (∀ (json_loads : String → Reply) (s : ReqSocket),
      send_and_receive json_loads s .sent .again =
        (req_reconnect s, .error (.NoAnswer s.ip s.port)) ∧
      (req_reconnect s).generation = s.generation + 1) ∧
    (∀ (json_loads : String → Reply) (s : ReqSocket) (payload : String),
      send_and_receive json_loads s .sent (.reply payload) =
        ({ s with event_set := true }, .ok (json_loads payload))) ∧
    (∀ c, ReqReachable c → oneOutstanding c) := by
  refine ⟨fun _ s => ⟨rfl, rfl⟩, fun _ s _ => rfl, ?_⟩
  intro c h
  have hinv : mutexInv c := by
    induction h with
    | refl => exact fun i hi => nomatch hi
    | tail hab hbc ih => exact ReqStep_mutexInv hbc ih
  intro i j hi hj
  have h1 := hinv i hi
  have h2 := hinv j hj
  rw [h1] at h2
  exact Option.some.inj h2

/-- Witness for C9: the concrete timeout outcome on a live socket, and
mutual exclusion at the concrete reachable system in which thread 0 holds
the mutex mid-request. -/
theorem C9_send_and_receive_witness :
    send_and_receive jsonLoadsC sockC .sent .again =
      (req_reconnect sockC, .error (.NoAnswer "10.44.160.10" 5560)) ∧
    oneOutstanding reqC1 := by
  refine ⟨(C9_send_and_receive.1 jsonLoadsC sockC).1, ?_⟩
  refine C9_send_and_receive.2.2 reqC1 ?_
  have h1 : Relation.ReflTransGen ReqStep reqInit reqC0 :=
    Relation.ReflTransGen.single (ReqStep.start 0 reqInit rfl)
  have h2 : ReqStep reqC0 reqC1 := ReqStep.acquire 0 reqC0 rfl rfl
  exact Relation.ReflTransGen.tail h1 h2

/-- Case analysis of the link-loss check: every field except
`connected`, `in_controls` and the log is left untouched, and authority
only ever moves to the safety layer. -/
theorem is_link_lost_frame (env : DssEnv) (s : DssState) :
    ((is_link_lost env s).2).task = s.task ∧
    ((is_link_lost env s).2).task_event = s.task_event ∧
    ((is_link_lost env s).2).t_last_owner_msg = s.t_last_owner_msg ∧
    (((is_link_lost env s).2).in_controls = s.in_controls ∨
     ((is_link_lost env s).2).in_controls = "DSS") := by
  unfold is_link_lost
  by_cases h1 : s.connected = true
  case neg => rw [if_neg h1]; exact ⟨rfl, rfl, rfl, Or.inl rfl⟩
  rw [if_pos h1]
  by_cases h2 : (0.5 : ℚ) * 10 < env.now - s.t_last_owner_msg ∧
      env.now - s.t_last_owner_msg < 10
  case pos => rw [if_pos h2]; exact ⟨rfl, rfl, rfl, Or.inl rfl⟩
  rw [if_neg h2]
  by_cases h3 : env.now - s.t_last_owner_msg ≥ 10
  case neg => rw [if_neg h3]; exact ⟨rfl, rfl, rfl, Or.inl rfl⟩
  rw [if_pos h3]
  by_cases h4 : s.in_controls = "APPLICATION"
  · rw [if_pos h4]; exact ⟨rfl, rfl, rfl, Or.inr rfl⟩
  · rw [if_neg h4]; exact ⟨rfl, rfl, rfl, Or.inl rfl⟩

/-- Request dispatch never changes who is in controls (no request
callback writes `_in_controls`). -/
theorem dssDispatch_in_controls (req : DssHandlers) (msg : DssMsg) (s : DssState)
    (hreq : handlersPreserveControls req) :
    ((dssDispatch req msg s).2).in_controls = s.in_controls := by
  unfold dssDispatch
  rcases h : dssCommands msg.fcn with _ | b
  · rfl
  · rcases b with _ | _
    · exact hreq msg.fcn msg s
    · simp only []
      by_cases hbusy : s.task_event = true
      case pos =>
        rw [if_pos hbusy]
        simp
      case neg =>
        rw [if_neg hbusy]
        by_cases hack : is_ack (req msg.fcn msg s).1 = true
        · rw [if_pos hack]
          simpa using hreq msg.fcn msg s
        · rw [if_neg hack]
          simpa using hreq msg.fcn msg s

/-- The safety-layer branch changes only the task slot, the task-event
flag, the abort flag and the log. -/
theorem dssControlsBranch_frame (s : DssState) :
    ((dssControlsBranch s).1).in_controls = s.in_controls ∧
    ((dssControlsBranch s).1).connected = s.connected ∧
    ((dssControlsBranch s).1).t_last_owner_msg = s.t_last_owner_msg ∧
    ((dssControlsBranch s).1).owner = s.owner := by
  unfold dssControlsBranch
  by_cases h1 : s.in_controls = "DSS"
  case neg => rw [if_neg h1]; exact ⟨rfl, rfl, rfl, rfl⟩
  rw [if_pos h1]
  by_cases h2 : s.task.fcn = "rtl"
  · rw [if_pos h2]
    by_cases h3 : s.task_event = true
    · rw [if_pos h3]; exact ⟨rfl, rfl, rfl, rfl⟩
    · rw [if_neg h3]; exact ⟨rfl, rfl, rfl, rfl⟩
  · rw [if_neg h2]
    by_cases h3 : s.task_event = true
    · rw [if_pos h3]; exact ⟨rfl, rfl, rfl, rfl⟩
    · rw [if_neg h3]; exact ⟨rfl, rfl, rfl, rfl⟩

/-- In the ZMQ phase authority either stays or falls to the safety
layer. -/
theorem zmqPhase_in_controls (req : DssHandlers) (env : DssEnv) (s : DssState)
    (hreq : handlersPreserveControls req) :
    ((zmqPhase req env s).1).in_controls = s.in_controls ∨
    ((zmqPhase req env s).1).in_controls = "DSS" := by
  unfold zmqPhase
  rcases env.recv with _ | msg
  · exact (is_link_lost_frame env s).2.2.2
  · simp only
    set s1 := if msg.id = s.owner then { s with t_last_owner_msg := env.now } else s with hs1
    have hs1c : s1.in_controls = s.in_controls := by
      rw [hs1]
      split_ifs <;> rfl
    have h2 := (is_link_lost_frame env s1).2.2.2
    rw [hs1c] at h2
    by_cases hL : (is_link_lost env s1).1 = true
    · rw [if_pos hL]
      exact h2
    · rw [if_neg hL]
      set s2 := (is_link_lost env s1).2 with hs2
      set s3 := if s2.connected = false ∧ msg.id = s2.owner ∧ ¬ msg.id = "crm"
        then { s2 with connected := true, logs := s2.logs ++ ["Application is connected"] }
        else s2 with hs3
      have hs3c : s3.in_controls = s2.in_controls := by
        rw [hs3]
        split_ifs <;> rfl
      have hd := dssDispatch_in_controls req msg s3 hreq
      rw [hd, hs3c]
      exact h2

/-- Per-tick authority transitions of the main loop: authority stays,
falls to `PILOT` or to `DSS`, or — only from `PILOT` — rises to
`APPLICATION`. -/
theorem mainTick_controls_cases (req : DssHandlers) (env : DssEnv) (s : DssState)
    (hreq : handlersPreserveControls req) :
    ((mainTick req env s).1).in_controls = s.in_controls ∨
    ((mainTick req env s).1).in_controls = "PILOT" ∨
    ((mainTick req env s).1).in_controls = "DSS" ∨
    (s.in_controls = "PILOT" ∧ ((mainTick req env s).1).in_controls = "APPLICATION") := by
  unfold mainTick
  by_cases h1 : s.in_controls = "APPLICATION" ∧ lost_link_to_gcs env = true
  case pos =>
    rw [if_pos h1]
    right; right; left; rfl
  rw [if_neg h1]
  by_cases h2 : (s.in_controls = "APPLICATION" ∨ s.in_controls = "DSS") ∧
      env.expected_flight_mode = false
  case pos =>
    rw [if_pos h2]
    right; left; rfl
  rw [if_neg h2]
  by_cases h3 : s.in_controls = "PILOT" ∧ pilot_handover_ready env s = true
  case pos =>
    rw [if_pos h3]
    right; right; right
    exact ⟨h3.1, rfl⟩
  rw [if_neg h3]
  by_cases hcont : (dssControlsBranch s).2 = true
  · rw [if_pos hcont]
    left
    exact (dssControlsBranch_frame s).1
  · rw [if_neg hcont]
    have hz := zmqPhase_in_controls req env (dssControlsBranch s).1 hreq
    rw [(dssControlsBranch_frame s).1] at hz
    rcases hz with h | h
    · left; exact h
    · right; right; left; exact h

/-- In the degraded zone (silence strictly between 5 and 10 seconds) the
link-loss check only logs the warning: no flag or authority changes. -/
theorem is_link_lost_warn (env : DssEnv) (s : DssState) (hc : s.connected = true)
    (h5 : 5 < env.now - s.t_last_owner_msg) (h10 : env.now - s.t_last_owner_msg < 10) :
    is_link_lost env s =
      (false, { s with logs := s.logs ++ ["Application link degraded"] }) := by
  unfold is_link_lost
  rw [if_pos hc, if_pos ⟨by linarith, h10⟩]

/-- At ten seconds of silence or more the link is declared lost: the
connected flag drops, and authority moves from `APPLICATION` to the
safety layer (and otherwise stays). -/
theorem is_link_lost_lost (env : DssEnv) (s : DssState) (hc : s.connected = true)
    (h10 : env.now - s.t_last_owner_msg ≥ 10) :
    (is_link_lost env s).1 = true ∧
    ((is_link_lost env s).2).connected = false ∧
    (s.in_controls = "APPLICATION" → ((is_link_lost env s).2).in_controls = "DSS") ∧
    (¬ s.in_controls = "APPLICATION" →
      ((is_link_lost env s).2).in_controls = s.in_controls) := by
  unfold is_link_lost
  have hw : ¬ ((0.5 : ℚ) * 10 < env.now - s.t_last_owner_msg ∧
      env.now - s.t_last_owner_msg < 10) := by
    rintro ⟨_, hlt⟩
    linarith
  rw [if_pos hc, if_neg hw, if_pos h10]
  by_cases h4 : s.in_controls = "APPLICATION"
  · rw [if_pos h4]
    exact ⟨rfl, rfl, fun _ => rfl, fun hn => absurd h4 hn⟩
  · rw [if_neg h4]
    exact ⟨rfl, rfl, fun ha => absurd ha h4, fun _ => rfl⟩

/-- A tick that reaches the receive phase with a timeout runs exactly the
link-loss check (the monitor prelude passes when the gcs link is up, the
flight mode is as commanded and no handover fires). -/
theorem mainTick_timeout_app (req : DssHandlers) (env : DssEnv) (s : DssState)
    (hrecv : env.recv = none) (happ : s.in_controls = "APPLICATION")
    (hgcs : lost_link_to_gcs env = false) (hexp : env.expected_flight_mode = true) :
    mainTick req env s = ((is_link_lost env s).2, none) := by
  unfold mainTick
  rw [if_neg (by rintro ⟨_, hg⟩; rw [hg] at hgcs; cases hgcs)]
  rw [if_neg (by rintro ⟨_, he⟩; rw [he] at hexp; cases hexp)]
  rw [if_neg (by rintro ⟨hp, _⟩; rw [happ] at hp; exact absurd hp (by decide))]
  have hb : dssControlsBranch s = (s, false) := by
    unfold dssControlsBranch
    rw [if_neg (by rw [happ]; decide)]
  rw [hb]
  unfold zmqPhase
  rw [hrecv]
  simp

/-- A safety-layer tick with an idle task slot auto-enqueues the RTL
task. -/
theorem mainTick_rtl_enqueue (req : DssHandlers) (env : DssEnv) (s : DssState)
    (hdss : s.in_controls = "DSS") (hexp : env.expected_flight_mode = true)
    (htask : ¬ s.task.fcn = "rtl") (hev : s.task_event = false)
    (hrecv : env.recv = none) :
    ((mainTick req env s).1).task = (⟨"rtl", ""⟩ : DssMsg) ∧
    ((mainTick req env s).1).task_event = true := by
  unfold mainTick
  rw [if_neg (by rintro ⟨hp, _⟩; rw [hdss] at hp; exact absurd hp (by decide))]
  rw [if_neg (by rintro ⟨_, he⟩; rw [he] at hexp; cases hexp)]
  rw [if_neg (by rintro ⟨hp, _⟩; rw [hdss] at hp; exact absurd hp (by decide))]
  have hb : dssControlsBranch s =
      ({ s with abort_task := false, task := ⟨"rtl", ""⟩, task_event := true }, false) := by
    unfold dssControlsBranch
    rw [if_pos hdss, if_neg htask, if_neg (by rw [hev]; intro h; cases h)]
  rw [hb]
  unfold zmqPhase
  rw [hrecv]
  have hf := is_link_lost_frame env
    { s with abort_task := false, task := ⟨"rtl", ""⟩, task_event := true }
  simp [hf.1, hf.2.1]

/-- Claim C1 — the application-link failsafe.  (i) While connected and
silent strictly between 5 and 10 seconds, the check only logs the
degraded-link warning.  (ii) Once the silence reaches 10 seconds the link
is declared lost, the connected flag drops, and authority moves from
`APPLICATION` to the safety layer (`'DSS'`).  (iii) On the next dispatch
tick (receive timeout, monitor prelude passing) the whole tick performs
exactly that transition.  (iv) A safety-layer tick with an idle task slot
enqueues the `rtl` task.  (v) From the safety layer a tick never hands
authority to `APPLICATION` (it can only fall to `PILOT`). -/
theorem C1_app_link_failsafe :
    (∀ (env : DssEnv) (s : DssState), s.connected = true →
      5 < env.now - s.t_last_owner_msg → env.now - s.t_last_owner_msg < 10 →
      is_link_lost env s =
        (false, { s with logs := s.logs ++ ["Application link degraded"] })) ∧
    (∀ (env : DssEnv) (s : DssState), s.connected = true →
      env.now - s.t_last_owner_msg ≥ 10 →
      (is_link_lost env s).1 = true ∧
      ((is_link_lost env s).2).connected = false ∧
      (s.in_controls = "APPLICATION" → ((is_link_lost env s).2).in_controls = "DSS")) ∧
    (∀ (req : DssHandlers) (env : DssEnv) (s : DssState),
      env.recv = none → s.in_controls = "APPLICATION" →
      lost_link_to_gcs env = false → env.expected_flight_mode = true →
      s.connected = true → env.now - s.t_last_owner_msg ≥ 10 →
      ((mainTick req env s).1).in_controls = "DSS" ∧
      ((mainTick req env s).1).connected = false) ∧
    (∀ (req : DssHandlers) (env : DssEnv) (s : DssState),
      s.in_controls = "DSS" → env.expected_flight_mode = true →
      ¬ s.task.fcn = "rtl" → s.task_event = false → env.recv = none →
      ((mainTick req env s).1).task = (⟨"rtl", ""⟩ : DssMsg) ∧
      ((mainTick req env s).1).task_event = true) ∧
    (∀ (req : DssHandlers) (env : DssEnv) (s : DssState),
      handlersPreserveControls req → s.in_controls = "DSS" →
      ¬ ((mainTick req env s).1).in_controls = "APPLICATION") := by
  refine ⟨is_link_lost_warn, ?_, ?_, mainTick_rtl_enqueue, ?_⟩
  · intro env s hc h10
    obtain ⟨h1, h2, h3, _⟩ := is_link_lost_lost env s hc h10
    exact ⟨h1, h2, h3⟩
  · intro req env s hrecv happ hgcs hexp hc h10
    rw [mainTick_timeout_app req env s hrecv happ hgcs hexp]
    obtain ⟨_, h2, h3, _⟩ := is_link_lost_lost env s hc h10
    exact ⟨h3 happ, h2⟩
  · intro req env s hreq hdss
    rcases mainTick_controls_cases req env s hreq with h | h | h | ⟨hp, _⟩
    · rw [h, hdss]
      decide
    · rw [h]
      decide
    · rw [h]
      decide
    · rw [hdss] at hp
      exact absurd hp (by decide)

/-- Witness for C1 at concrete states: the degraded-zone warning at 7 s,
the declared loss with the `APPLICATION→DSS` transition at 15 s, the same
transition through a whole timeout tick, the RTL auto-enqueue from the
safety layer, and no `DSS→APPLICATION` step. -/
theorem C1_app_link_failsafe_witness :
    is_link_lost envWarnC stateC2 =
      (false, { stateC2 with logs := ["Application link degraded"] }) ∧
    (is_link_lost envLostC stateC2).1 = true ∧
    ((mainTick req0 envLostC stateC2).1).in_controls = "DSS" ∧
    ((mainTick req0 envLostC stateC2).1).connected = false ∧
    ((mainTick req0 envLostC stateDssC).1).task = (⟨"rtl", ""⟩ : DssMsg) ∧
    ((mainTick req0 envLostC stateDssC).1).task_event = true ∧
    ¬ ((mainTick req0 envLostC stateDssC).1).in_controls = "APPLICATION" := by
  obtain ⟨hwarn, hlost, htick, hrtl, hnoapp⟩ := C1_app_link_failsafe
  have h1 := hwarn envWarnC stateC2 (by decide!) (by decide!) (by decide!)
  have h2 := hlost envLostC stateC2 (by decide!) (by decide!)
  have h3 := htick req0 envLostC stateC2 rfl rfl rfl rfl (by decide!) (by decide!)
  have h4 := hrtl req0 envLostC stateDssC rfl rfl (by decide!) rfl rfl
  have h5 := hnoapp req0 envLostC stateDssC (fun _ _ _ => rfl) rfl
  exact ⟨by simpa using h1, h2.1, h3.1, h3.2, h4.1, h4.2, h5⟩

/-- With the application in controls and the gcs heartbeat link lost,
the tick ends in the gcs check: authority falls to the safety layer. -/
theorem mainTick_gcs_first (req : DssHandlers) (env : DssEnv) (s : DssState)
    (happ : s.in_controls = "APPLICATION") (hg : lost_link_to_gcs env = true) :
    mainTick req env s =
      ({ s with
          in_controls := "DSS",
          logs := s.logs ++ ["Lost link to the gcs heartbeats; DSS taking the CONTROLS"] },
       none) := by
  unfold mainTick
  rw [if_pos ⟨happ, hg⟩]

/-- With authority at the application or the safety layer and the
observed flight mode diverged from the commanded one, a tick that passes
the gcs check hands authority to the pilot and adopts the observed mode
as the new baseline. -/
theorem mainTick_flightmode (req : DssHandlers) (env : DssEnv) (s : DssState)
    (hctrl : s.in_controls = "APPLICATION" ∨ s.in_controls = "DSS")
    (hexp : env.expected_flight_mode = false)
    (hgcs : ¬ (s.in_controls = "APPLICATION" ∧ lost_link_to_gcs env = true)) :
    ((mainTick req env s).1).in_controls = "PILOT" ∧
    ((mainTick req env s).1).mode = env.flight_mode := by
  unfold mainTick
  rw [if_neg hgcs, if_pos ⟨hctrl, hexp⟩]
  exact ⟨rfl, rfl⟩

/-- Claim C2 (amended) — flight-mode supremacy of the pilot, with the
gcs-check exception.  If authority is at the application or the safety
layer and the observed flight mode differs from the last commanded one,
the next main-loop tick sets authority to `PILOT` — except when authority
is `APPLICATION` and the ground-station heartbeat link is simultaneously
lost: that tick sets authority to the safety layer (`'DSS'`) and, if the
divergence persists, the following tick sets `PILOT`.  The `who_controls`
reply always reports the current authority verbatim, and authority is
always exactly one of the three states (`PILOT` initially, preserved by
every tick). -/
theorem C2_flightmode_reversion_amended :
    (∀ (req : DssHandlers) (env : DssEnv) (s : DssState),
      (s.in_controls = "APPLICATION" ∨ s.in_controls = "DSS") →
      env.expected_flight_mode = false →
      (¬ (s.in_controls = "APPLICATION" ∧ lost_link_to_gcs env = true) →
        ((mainTick req env s).1).in_controls = "PILOT" ∧
        ((mainTick req env s).1).mode = env.flight_mode) ∧
      (s.in_controls = "APPLICATION" → lost_link_to_gcs env = true →
        ((mainTick req env s).1).in_controls = "DSS" ∧
        ∀ env2 : DssEnv, env2.expected_flight_mode = false →
          ((mainTick req env2 (mainTick req env s).1).1).in_controls = "PILOT")) ∧
    (∀ (msg : DssMsg) (s : DssState),
      request_who_controls msg s =
        (.ack msg.fcn [("in_controls", .str s.in_controls)], s)) ∧
    (∀ cc : Bool, inControlsValid (dssInit cc)) ∧
    (∀ (req : DssHandlers) (env : DssEnv) (s : DssState),
      handlersPreserveControls req → inControlsValid s →
      inControlsValid ((mainTick req env s).1)) := by
  refine ⟨?_, fun msg s => rfl, fun cc => Or.inl rfl, ?_⟩
  · intro req env s hctrl hexp
    refine ⟨mainTick_flightmode req env s hctrl hexp, ?_⟩
    intro happ hg
    rw [mainTick_gcs_first req env s happ hg]
    refine ⟨rfl, ?_⟩
    intro env2 hexp2
    refine (mainTick_flightmode req env2 _ (Or.inr rfl) hexp2 ?_).1
    rintro ⟨hD, _⟩
    have hD2 : "DSS" = "APPLICATION" := hD
    exact absurd hD2 (by decide)
  · intro req env s hreq hs
    rcases mainTick_controls_cases req env s hreq with h | h | h | ⟨_, h⟩
    · unfold inControlsValid
      rw [h]
      exact hs
    · exact Or.inl h
    · exact Or.inr (Or.inr h)
    · exact Or.inr (Or.inl h)

/-- Witness for C2 (amended) at concrete states: the plain divergence
tick hands the pilot the controls; with the gcs link also lost the tick
yields `DSS` and the next tick `PILOT`; `who_controls` reports the state;
a tick preserves validity of the authority value. -/
theorem C2_flightmode_reversion_witness :
    ((mainTick req0 envFmC stateC2).1).in_controls = "PILOT" ∧
    ((mainTick req0 envC2 stateC2).1).in_controls = "DSS" ∧
    ((mainTick req0 envC2 (mainTick req0 envC2 stateC2).1).1).in_controls = "PILOT" ∧
    request_who_controls ⟨"who_controls", "da001"⟩ stateC2 =
      (.ack "who_controls" [("in_controls", .str "APPLICATION")], stateC2) ∧
    inControlsValid ((mainTick req0 envC2 stateC2).1) := by
  obtain ⟨htrans, hwho, hinit, hpres⟩ := C2_flightmode_reversion_amended
  have h1 := (htrans req0 envFmC stateC2 (Or.inl rfl) rfl).1 (by decide)
  have h2 := (htrans req0 envC2 stateC2 (Or.inl rfl) rfl).2 rfl rfl
  have h4 := hwho ⟨"who_controls", "da001"⟩ stateC2
  have h5 := hpres req0 envC2 stateC2 (fun _ _ _ => rfl) (Or.inr (Or.inl rfl))
  exact ⟨h1.1, h2.1, h2.2 envC2 rfl, h4, h5⟩

/-- When every record has a capabilities field, the selection loop never
raises. -/
theorem get_drone_scan_ok (now : ℚ) (reqSet : List String)
    (l : List (String × ClientRecord)) (sel : DroneSel)
    (hcap : ∀ p ∈ l, p.2.capabilities.isSome = true) :
    ∃ sel2, get_drone_scan now reqSet l sel = .ok sel2 := by
  induction l generalizing sel with
  | nil => exact ⟨sel, rfl⟩
  | cons p rest ih =>
      rcases p with ⟨id_, c⟩
      rcases hc : c.capabilities with _ | caps
      · exact absurd (hcap (id_, c) (List.mem_cons_self _ _))
          (by simp [hc])
      · simp only [get_drone_scan, hc]
        exact ih (droneStep now reqSet sel id_ c caps)
          (fun q hq => hcap q (List.mem_cons_of_mem _ hq))

/-- One selection step never increases the best capability count. -/
theorem droneStep_n_le (now : ℚ) (reqSet : List String) (sel : DroneSel)
    (id_ : String) (c : ClientRecord) (caps : List String) :
    (droneStep now reqSet sel id_ c caps).n_capabilities ≤ sel.n_capabilities := by
  unfold droneStep
  split_ifs with hcond
  · exact Nat.le_of_lt (of_decide_eq_true ((Bool.and_eq_true _ _).mp hcond).2)
  · exact Nat.le_refl _

/-- The selection loop never increases the best capability count. -/
theorem get_drone_scan_n_le (now : ℚ) (reqSet : List String)
    (l : List (String × ClientRecord)) (sel sel2 : DroneSel)
    (h : get_drone_scan now reqSet l sel = .ok sel2) :
    sel2.n_capabilities ≤ sel.n_capabilities := by
  induction l generalizing sel with
  | nil =>
      simp only [get_drone_scan, Except.ok.injEq] at h
      rw [← h]
  | cons p rest ih =>
      rcases p with ⟨id_, c⟩
      rcases hc : c.capabilities with _ | caps
      · rw [get_drone_scan, hc] at h
        cases h
      · simp only [get_drone_scan, hc] at h
        exact Nat.le_trans (ih (droneStep now reqSet sel id_ c caps) h)
          (droneStep_n_le now reqSet sel id_ c caps)

/-- The loop result undercuts every eligible record in the list. -/
theorem get_drone_scan_min (now : ℚ) (reqSet : List String)
    (l : List (String × ClientRecord)) (sel sel2 : DroneSel)
    (h : get_drone_scan now reqSet l sel = .ok sel2)
    (id_ : String) (c : ClientRecord) (hmem : (id_, c) ∈ l)
    (helig : eligibleDrone now reqSet c = true) :
    sel2.n_capabilities ≤ capCount c := by
  induction l generalizing sel with
  | nil => cases hmem
  | cons p rest ih =>
      rcases p with ⟨pid, pc⟩
      rcases hc : pc.capabilities with _ | caps
      · rw [get_drone_scan, hc] at h
        cases h
      · simp only [get_drone_scan, hc] at h
        rcases List.mem_cons.mp hmem with heq | htail
        · obtain ⟨h1, h2⟩ := Prod.mk.injEq .. ▸ heq
          subst h1
          have hcc : capCount c = (capaSet caps).length := by
            rw [h2, capCount, hc]
            rfl
          by_cases hlt : (capaSet caps).length < sel.n_capabilities
          · have hcond : (eligibleDrone now reqSet pc &&
                decide ((capaSet caps).length < sel.n_capabilities)) = true := by
              rw [← h2, helig, decide_eq_true hlt]
              rfl
            have hstep : droneStep now reqSet sel id_ pc caps =
                ⟨true, (capaSet caps).length, id_⟩ := by
              unfold droneStep
              rw [if_pos hcond]
            rw [hstep] at h
            have := get_drone_scan_n_le now reqSet rest _ sel2 h
            rw [hcc]
            exact this
          · rw [hcc]
            exact Nat.le_trans (get_drone_scan_n_le now reqSet rest _ sel2 h)
              (Nat.le_trans (droneStep_n_le now reqSet sel id_ pc caps)
                (Nat.le_of_not_lt hlt))
        · exact ih (droneStep now reqSet sel pid pc caps) h htail

/-- The loop finds a drone iff one already was found or some listed
record is eligible with strictly fewer capabilities than the running
bound. -/
theorem get_drone_scan_found (now : ℚ) (reqSet : List String)
    (l : List (String × ClientRecord)) (sel sel2 : DroneSel)
    (h : get_drone_scan now reqSet l sel = .ok sel2) :
    sel2.drone_found = true ↔
      (sel.drone_found = true ∨ ∃ p ∈ l, eligibleDrone now reqSet p.2 = true ∧
        capCount p.2 < sel.n_capabilities) := by
  induction l generalizing sel with
  | nil =>
      simp only [get_drone_scan, Except.ok.injEq] at h
      subst h
      simp
  | cons p rest ih =>
      rcases p with ⟨pid, pc⟩
      rcases hc : pc.capabilities with _ | caps
      · rw [get_drone_scan, hc] at h
        cases h
      · simp only [get_drone_scan, hc] at h
        have hcc : capCount pc = (capaSet caps).length := by
          rw [capCount, hc]
          rfl
        by_cases hcond : (eligibleDrone now reqSet pc &&
            decide ((capaSet caps).length < sel.n_capabilities)) = true
        · have hstep : droneStep now reqSet sel pid pc caps =
              ⟨true, (capaSet caps).length, pid⟩ := by
            unfold droneStep
            rw [if_pos hcond]
          rw [hstep] at h
          have hih := ih _ h
          constructor
          · intro _
            right
            refine ⟨(pid, pc), List.mem_cons_self _ _, ?_, ?_⟩
            · exact ((Bool.and_eq_true _ _).mp hcond).1
            · rw [hcc]
              exact of_decide_eq_true ((Bool.and_eq_true _ _).mp hcond).2
          · intro _
            exact hih.mpr (Or.inl rfl)
        · have hstep : droneStep now reqSet sel pid pc caps = sel := by
            unfold droneStep
            rw [if_neg hcond]
          rw [hstep] at h
          have hih := ih _ h
          rw [hih]
          constructor
          · rintro (hf | ⟨q, hq, he, hlt⟩)
            · exact Or.inl hf
            · exact Or.inr ⟨q, List.mem_cons_of_mem _ hq, he, hlt⟩
          · rintro (hf | ⟨q, hq, he, hlt⟩)
            · exact Or.inl hf
            · rcases List.mem_cons.mp hq with heq | htail
              · exfalso
                apply hcond
                rw [heq] at he hlt
                rw [he]
                rw [hcc] at hlt
                rw [decide_eq_true hlt]
                rfl
              · exact Or.inr ⟨q, htail, he, hlt⟩

/-- The loop result is either the initial accumulator or describes an
eligible record of the list. -/
theorem get_drone_scan_witness (now : ℚ) (reqSet : List String)
    (l : List (String × ClientRecord)) (sel sel2 : DroneSel)
    (h : get_drone_scan now reqSet l sel = .ok sel2) :
    sel2 = sel ∨ ∃ p ∈ l, eligibleDrone now reqSet p.2 = true ∧
      sel2.dss_id = p.1 ∧ sel2.n_capabilities = capCount p.2 ∧
      sel2.drone_found = true := by
  induction l generalizing sel with
  | nil =>
      simp only [get_drone_scan, Except.ok.injEq] at h
      exact Or.inl h.symm
  | cons p rest ih =>
      rcases p with ⟨pid, pc⟩
      rcases hc : pc.capabilities with _ | caps
      · rw [get_drone_scan, hc] at h
        cases h
      · simp only [get_drone_scan, hc] at h
        have hcc : capCount pc = (capaSet caps).length := by
          rw [capCount, hc]
          rfl
        by_cases hcond : (eligibleDrone now reqSet pc &&
            decide ((capaSet caps).length < sel.n_capabilities)) = true
        · have hstep : droneStep now reqSet sel pid pc caps =
              ⟨true, (capaSet caps).length, pid⟩ := by
            unfold droneStep
            rw [if_pos hcond]
          rw [hstep] at h
          rcases ih _ h with heq | ⟨q, hq, he, hid, hn, hf⟩
          · right
            refine ⟨(pid, pc), List.mem_cons_self _ _,
              ((Bool.and_eq_true _ _).mp hcond).1, ?_, ?_, ?_⟩
            · rw [heq]
            · rw [heq, hcc]
            · rw [heq]
          · exact Or.inr ⟨q, List.mem_cons_of_mem _ hq, he, hid, hn, hf⟩
        · have hstep : droneStep now reqSet sel pid pc caps = sel := by
            unfold droneStep
            rw [if_neg hcond]
          rw [hstep] at h
          rcases ih _ h with heq | ⟨q, hq, he, hid, hn, hf⟩
          · exact Or.inl heq
          · exact Or.inr ⟨q, List.mem_cons_of_mem _ hq, he, hid, hn, hf⟩

/-- Claim C5 (amended) — provided every registry record carries a
`capabilities` field and the requester is registered, a
`get_drone(capabilities=S)` request either nacks "no available drone with
requested capabilities" (when no record is owned by the broker, of type
dss, fresh, a case-insensitive superset of S, and below the initial bound
of 100 distinct capabilities), or grants a lease on a registered record
that satisfies all the eligibility conditions — in particular its
capability set is a superset of S — and has the minimum capability count
among all eligible records; the reply carries that record's id, ip and
port and the `set_owner` change is appended to the task queue. -/
theorem C5_get_drone_tightest_fit_amended (now : ℚ) (st : CrmState)
    (msg : GetDroneMsg) (S : List String)
    (hforce : msg.force = none)
    (hS : msg.capabilities = some S)
    (hreq : (dictGet st.clients msg.id).isSome = true)
    (hall : ∀ p ∈ st.clients, p.2.capabilities.isSome = true)
    (hnodup : (st.clients.map Prod.fst).Nodup) :
    ((¬ ∃ p ∈ st.clients, eligibleDrone now (capaSet S) p.2 = true ∧
        capCount p.2 < 100) →
      request_get_drone now st msg =
        (st, .ok (.nack "get_drone" "no available drone with requested capabilities"))) ∧
    ((∃ p ∈ st.clients, eligibleDrone now (capaSet S) p.2 = true ∧
        capCount p.2 < 100) →
      ∃ d c, (d, c) ∈ st.clients ∧
        eligibleDrone now (capaSet S) c = true ∧
        (∀ q ∈ st.clients, eligibleDrone now (capaSet S) q.2 = true →
          capCount c ≤ capCount q.2) ∧
        request_get_drone now st msg =
          ({ st with task_queue := st.task_queue ++ [.set_owner d msg.id] },
           .ok (.ack "get_drone"
             [("id", .str d), ("ip", .str c.ip), ("port", .int c.port)]))) := by
  obtain ⟨sel2, hscan⟩ :=
    get_drone_scan_ok now (capaSet S) st.clients ⟨false, 100, ""⟩ hall
  have hnone : (dictGet st.clients msg.id).isNone = false := by
    rcases hdg : dictGet st.clients msg.id with _ | v
    · rw [hdg] at hreq
      cases hreq
    · rfl
  have hfound := get_drone_scan_found now (capaSet S) st.clients _ sel2 hscan
  constructor
  · intro hno
    have hff : sel2.drone_found = false := by
      rcases hf : sel2.drone_found
      · rfl
      · exfalso
        rcases hfound.mp hf with h0 | ⟨p, hp, he, hlt⟩
        · cases h0
        · exact hno ⟨p, hp, he, hlt⟩
    unfold request_get_drone
    rw [hforce, hS]
    simp only [Option.isSome_some, Option.isSome_none, Bool.false_or,
      Bool.not_true, Option.getD_some, hnone]
    rw [if_neg (by simp), if_neg (by simp), hscan]
    simp only [hff]
    rw [if_neg (by simp)]
  · rintro ⟨p, hp, he, hlt⟩
    have hft : sel2.drone_found = true :=
      hfound.mpr (Or.inr ⟨p, hp, he, hlt⟩)
    rcases get_drone_scan_witness now (capaSet S) st.clients _ sel2 hscan with
      heq | ⟨q, hq, helig, hid, hn, _⟩
    · rw [heq] at hft
      cases hft
    · refine ⟨q.1, q.2, (Prod.mk.eta ▸ hq), helig, ?_, ?_⟩
      · intro r hr hre
        rw [← hn]
        exact get_drone_scan_min now (capaSet S) st.clients _ sel2 hscan
          r.1 r.2 (Prod.mk.eta ▸ hr) hre
      · have hdict : dictGet st.clients q.1 = some q.2 :=
          dictGet_of_mem hnodup (Prod.mk.eta ▸ hq)
        unfold request_get_drone
        rw [hforce, hS]
        simp only [Option.isSome_some, Option.isSome_none, Bool.false_or,
          Bool.not_true, Option.getD_some, hnone]
        rw [if_neg (by simp), if_neg (by simp), hscan]
        simp only [hft, hid, hdict]
        simp

/-- Witness for C5 (amended): on a registry with an application record
and one eligible dss record the lease is granted, and on a registry
containing the requester only the request is nacked. -/
theorem C5_get_drone_witness :
    (∃ d c, (d, c) ∈ crmStC5w.clients ∧
      eligibleDrone 100 (capaSet ["RGB"]) c = true ∧
      (∀ q ∈ crmStC5w.clients, eligibleDrone 100 (capaSet ["RGB"]) q.2 = true →
        capCount c ≤ capCount q.2) ∧
      request_get_drone 100 crmStC5w msgC5 =
        ({ crmStC5w with task_queue := crmStC5w.task_queue ++
            [.set_owner d msgC5.id] },
         .ok (.ack "get_drone"
           [("id", .str d), ("ip", .str c.ip), ("port", .int c.port)]))) ∧
    request_get_drone 100 crmStC5n msgC5 =
      (crmStC5n, .ok (.nack "get_drone" "no available drone with requested capabilities")) := by
  constructor
  · exact (C5_get_drone_tightest_fit_amended 100 crmStC5w msgC5 ["RGB"]
      rfl rfl (by decide!) (by decide!) (by decide!)).2
      ⟨("dss002", recDss002), by decide!, by decide!, by decide!⟩
  · exact (C5_get_drone_tightest_fit_amended 100 crmStC5n msgC5 ["RGB"]
      rfl rfl (by decide!) (by decide!) (by decide!)).1
      (by decide!)


/-- A parseable waypoint id makes `json_to_LLA` return the converted
waypoint. -/
theorem json_to_LLA_ok (env : MathEnv) (hx : HexaState) (jwp : JsonWP) (id_str : String)
    (hp : (pyInt? (id_str.replace "id" "")).isSome = true) :
    json_to_LLA env hx jwp id_str = .ok (json_to_LLA_wp env hx jwp id_str) := by
  unfold json_to_LLA
  obtain ⟨n, hn⟩ := Option.isSome_iff_exists.mp hp
  rw [hn]

/-- An unparseable waypoint id makes `json_to_LLA` raise `ValueError`. -/
theorem json_to_LLA_err (env : MathEnv) (hx : HexaState) (jwp : JsonWP) (id_str : String)
    (hp : pyInt? (id_str.replace "id" "") = none) :
    json_to_LLA env hx jwp id_str = .error (.valueError (id_str.replace "id" "")) := by
  unfold json_to_LLA
  rw [hp]

/-- When the waypoint at the head of the remaining list passes every
check, the upload loop appends its converted form and recurses. -/
theorem upload_mission_loop_step (env : MathEnv) (hx : HexaState)
    (mission rest : List (String × JsonWP)) (id_str : String) (jwp : JsonWP)
    (i : Nat) (temp : List (String × Waypoint))
    (hw : wp_checks_ok env hx mission i id_str jwp) :
    upload_mission_loop env hx mission ((id_str, jwp) :: rest) i temp =
      upload_mission_loop env hx mission rest (i + 1)
        (temp ++ [(id_str, json_to_LLA_wp env hx jwp id_str)]) := by
  simp only [wp_checks_ok] at hw
  obtain ⟨hp, h1, h2, h3, h4, h5, h6⟩ := hw
  have hTF : ¬ ((true : Bool) = false) := by decide
  have hFT : ¬ ((false : Bool) = true) := by decide
  simp only [upload_mission_loop, json_to_LLA_ok env hx jwp id_str hp]
  rw [if_neg h1, h2, if_neg hTF, h3, if_neg hTF, h4, if_neg hFT, if_neg h5, if_neg h6]

/-- When the waypoint at the head of the remaining list has a parseable
id but fails some check, the upload loop reports failure with the
accumulator unchanged. -/
theorem upload_mission_loop_fail (env : MathEnv) (hx : HexaState)
    (mission rest : List (String × JsonWP)) (id_str : String) (jwp : JsonWP)
    (i : Nat) (temp : List (String × Waypoint))
    (hw : ¬ wp_checks_ok env hx mission i id_str jwp)
    (hp : (pyInt? (id_str.replace "id" "")).isSome = true) :
    ∃ descr, upload_mission_loop env hx mission ((id_str, jwp) :: rest) i temp =
      .ok (false, descr, temp) := by
  simp only [upload_mission_loop, json_to_LLA_ok env hx jwp id_str hp]
  by_cases h1 : (json_to_LLA_wp env hx jwp id_str).lat = 0 ∧
      (json_to_LLA_wp env hx jwp id_str).lon = 0
  · rw [if_pos h1]
    exact ⟨_, rfl⟩
  · rw [if_neg h1]
    by_cases h2 : (check_geofence env (json_to_LLA_wp env hx jwp id_str) hx.init_point_wp
        hx.geofence.radius hx.geofence.height_low hx.geofence.height_high).1 = false
    · rw [if_pos h2]
      exact ⟨_, rfl⟩
    · rw [if_neg h2]
      have h2t : (check_geofence env (json_to_LLA_wp env hx jwp id_str) hx.init_point_wp
          hx.geofence.radius hx.geofence.height_low hx.geofence.height_high).1 = true := by
        rcases hg : (check_geofence env (json_to_LLA_wp env hx jwp id_str) hx.init_point_wp
            hx.geofence.radius hx.geofence.height_low hx.geofence.height_high).1
        · exact absurd hg h2
        · rfl
      by_cases h3 : missionHas mission ("id" ++ toString i) = false
      · rw [if_pos h3]
        exact ⟨_, rfl⟩
      · rw [if_neg h3]
        have h3t : missionHas mission ("id" ++ toString i) = true := by
          rcases hg : missionHas mission ("id" ++ toString i)
          · exact absurd hg h3
          · rfl
        by_cases h4 : jwp.action.isSome = true
        · rw [if_pos h4]
          exact ⟨_, rfl⟩
        · rw [if_neg h4]
          have h4f : jwp.action.isSome = false := by
            rcases hg : jwp.action.isSome
            · rfl
            · exact absurd hg h4
          by_cases h5 : (json_to_LLA_wp env hx jwp id_str).speed < (0.1 : ℚ)
          · rw [if_pos h5]
            exact ⟨_, rfl⟩
          · rw [if_neg h5]
            by_cases h6 : (json_to_LLA_wp env hx jwp id_str).heading = -99
            · rw [if_pos h6]
              exact ⟨_, rfl⟩
            · exact absurd ⟨hp, h1, h2t, h3t, h4f, h5, h6⟩ hw

/-- On a fully valid remainder the upload loop returns success, the
empty description and the accumulated converted waypoints. -/
theorem loop_ok_result (env : MathEnv) (hx : HexaState)
    (mission rem : List (String × JsonWP)) (i : Nat) (temp : List (String × Waypoint))
    (h : ∀ k : Fin rem.length,
      wp_checks_ok env hx mission (i + k.1) (rem.get k).1 (rem.get k).2) :
    upload_mission_loop env hx mission rem i temp =
      .ok (true, "", temp ++ rem.map (fun p => (p.1, json_to_LLA_wp env hx p.2 p.1))) := by
  induction rem generalizing i temp with
  | nil => simp [upload_mission_loop]
  | cons p rest ih =>
      rcases p with ⟨id_str, jwp⟩
      have hw : wp_checks_ok env hx mission i id_str jwp := h ⟨0, Nat.succ_pos _⟩
      have htail : ∀ k : Fin rest.length,
          wp_checks_ok env hx mission (i + 1 + k.1) (rest.get k).1 (rest.get k).2 := by
        intro k
        have hv : wp_checks_ok env hx mission (i + (k.1 + 1))
            (rest.get k).1 (rest.get k).2 :=
          h ⟨k.1 + 1, Nat.succ_lt_succ k.2⟩
        have harith : i + (k.1 + 1) = i + 1 + k.1 := by omega
        rw [harith] at hv
        exact hv
      rw [upload_mission_loop_step env hx mission rest id_str jwp i temp hw,
        ih (i + 1) (temp ++ [(id_str, json_to_LLA_wp env hx jwp id_str)]) htail]
      simp

/-- When every remaining waypoint id parses but some check fails, the
upload loop still returns an `(ok, descr)` pair — with `ok = False`. -/
theorem loop_fail_result (env : MathEnv) (hx : HexaState)
    (mission rem : List (String × JsonWP)) (i : Nat) (temp : List (String × Waypoint))
    (hkeys : ∀ p ∈ rem, (pyInt? (p.1.replace "id" "")).isSome = true)
    (hnot : ¬ ∀ k : Fin rem.length,
      wp_checks_ok env hx mission (i + k.1) (rem.get k).1 (rem.get k).2) :
    ∃ descr temp2, upload_mission_loop env hx mission rem i temp =
      .ok (false, descr, temp2) := by
  induction rem generalizing i temp with
  | nil => exact absurd (fun k => absurd k.2 (Nat.not_lt_zero _)) hnot
  | cons p rest ih =>
      rcases p with ⟨id_str, jwp⟩
      by_cases hw : wp_checks_ok env hx mission i id_str jwp
      · rw [upload_mission_loop_step env hx mission rest id_str jwp i temp hw]
        refine ih (i + 1) _ (fun q hq => hkeys q (List.mem_cons_of_mem _ hq)) ?_
        intro hall
        apply hnot
        intro k
        rcases k with ⟨kv, hk⟩
        cases kv with
        | zero => exact hw
        | succ n =>
            have hn : n < rest.length := Nat.lt_of_succ_lt_succ hk
            have hv : wp_checks_ok env hx mission (i + 1 + n)
                (rest.get ⟨n, hn⟩).1 (rest.get ⟨n, hn⟩).2 := hall ⟨n, hn⟩
            have harith : i + 1 + n = i + (n + 1) := by omega
            rw [harith] at hv
            exact hv
      · obtain ⟨descr, hres⟩ := upload_mission_loop_fail env hx mission rest id_str jwp
          i temp hw (hkeys (id_str, jwp) (List.mem_cons_self _ _))
        exact ⟨descr, temp, hres⟩

/-- Claim C3 (amended) — for every nonempty mission all of whose
waypoint keys parse as ids (`int(id_str.replace("id", ""))` succeeds),
`upload_mission` returns an `(ok, descr, state)` triple where `ok` holds
exactly when every waypoint passes every check (numbering, position
format, geofence, action, speed, heading); on success the pending
mission is replaced wholesale by the converted waypoints and on failure
the state is unchanged, and the request layer turns the pair into an ack
or a nack carrying the description; in particular the mission
`id0, id1, id3` is rejected with "WP numbering faulty, missing id2" and
no partial mission is retained.  The empty mission instead raises
`UnboundLocalError` (see claim C10), and a mission with an unparseable
waypoint key such as `"wp0"` raises `ValueError` — on those missions no
`(ok, descr)` pair exists. -/
theorem C3_mission_upload_atomic_amended (env : MathEnv) (hx : HexaState)
    (w : String × JsonWP) (ws : List (String × JsonWP))
    (hkeys : ∀ p ∈ w :: ws, (pyInt? (p.1.replace "id" "")).isSome = true) :
    (∃ ok descr hx2,
      upload_mission env hx (w :: ws) = .ok (ok, descr, hx2) ∧
      (ok = true ↔ missionValid env hx (w :: ws)) ∧
      (ok = true → descr = "" ∧
        hx2 = { hx with pending_mission := convertMission env hx (w :: ws) }) ∧
      (ok = false → hx2 = hx) ∧
      (∀ fcn requester,
        hx.init_point_wp.is_init_point = true →
        request_upload_mission env fcn requester requester hx (w :: ws) =
          .ok ((if ok = true then .ack fcn [] else .nack fcn descr), hx2))) ∧
    upload_mission mathEnvC hexaC mission013 =
      .ok (false, "WP numbering faulty, missing id2", hexaC) ∧
    upload_mission mathEnvC hexaC [("wp0", jwpC 10)] =
      .error (.valueError "wp0") := by
  refine ⟨?_, by decide!, by decide!⟩
  by_cases hv : missionValid env hx (w :: ws)
  · have hall : ∀ k : Fin (w :: ws).length,
        wp_checks_ok env hx (w :: ws) (0 + k.1) ((w :: ws).get k).1 ((w :: ws).get k).2 := by
      intro k
      rw [Nat.zero_add]
      exact hv k
    have hresult : upload_mission_loop env hx (w :: ws) (w :: ws) 0 [] =
        .ok (true, "", [] ++ (w :: ws).map (fun p => (p.1, json_to_LLA_wp env hx p.2 p.1))) :=
      loop_ok_result env hx (w :: ws) (w :: ws) 0 [] hall
    have hup : upload_mission env hx (w :: ws) =
        .ok (true, "", { hx with pending_mission := convertMission env hx (w :: ws) }) := by
      simp only [upload_mission]
      rw [hresult]
      simp [convertMission]
    refine ⟨true, "", { hx with pending_mission := convertMission env hx (w :: ws) },
      hup, ?_, ?_, ?_, ?_⟩
    · exact ⟨fun _ => hv, fun _ => rfl⟩
    · intro _
      exact ⟨rfl, rfl⟩
    · intro h
      exact absurd h (by decide)
    · intro fcn requester hinit
      have hinit2 : ¬ hx.init_point_wp.is_init_point = false := by
        rw [hinit]
        decide
      unfold request_upload_mission
      rw [if_neg (not_not_intro rfl), if_neg hinit2, hup]
      simp
  · have hnot : ¬ ∀ k : Fin (w :: ws).length,
        wp_checks_ok env hx (w :: ws) (0 + k.1) ((w :: ws).get k).1 ((w :: ws).get k).2 := by
      intro hall
      apply hv
      intro k
      have h2 := hall k
      rw [Nat.zero_add] at h2
      exact h2
    obtain ⟨descr, temp2, hres⟩ := loop_fail_result env hx (w :: ws) (w :: ws) 0 [] hkeys hnot
    have hup : upload_mission env hx (w :: ws) = .ok (false, descr, hx) := by
      simp only [upload_mission]
      rw [hres]
      simp
    refine ⟨false, descr, hx, hup, ?_, ?_, ?_, ?_⟩
    · constructor
      · intro h
        exact absurd h (by decide)
      · intro h2
        exact absurd h2 hv
    · intro h
      exact absurd h (by decide)
    · intro _
      rfl
    · intro fcn requester hinit
      have hinit2 : ¬ hx.init_point_wp.is_init_point = false := by
        rw [hinit]
        decide
      unfold request_upload_mission
      rw [if_neg (not_not_intro rfl), if_neg hinit2, hup]
      simp

/-- Witness for C3 (amended): the single-waypoint mission `id0` passes
every check and replaces the pending mission wholesale. -/
theorem C3_mission_upload_witness :
    upload_mission mathEnvC hexaC missionGood =
      .ok (true, "",
        { hexaC with pending_mission := convertMission mathEnvC hexaC missionGood }) := by
  obtain ⟨⟨ok, descr, hx2, hup, hiff, htrue, _⟩, _, _⟩ :=
    C3_mission_upload_atomic_amended mathEnvC hexaC ("id0", jwpC 10) [] (by decide!)
  have hok : ok = true := hiff.mpr (by decide!)
  obtain ⟨hdescr, hhx⟩ := htrue hok
  rw [hok, hdescr, hhx] at hup
  exact hup

end RiseDrones
